import Mathlib

/-!
Shallow embedding of the MathMotion job repository, job-submission endpoint
(auto-fix branch), rate limiter, prompt cache, sandboxed renderer and
code-validation pipeline, with theorems settling the frozen claims.

Conventions used throughout:
* JavaScript strings are Lean `String`s; `undefined`/absent object fields are
  `Option.none`; JavaScript objects become Lean structures.
* Timestamps are `Nat` milliseconds (`Date.now()`) or opaque ISO strings,
  passed explicitly where the source calls `Date.now()` /
  `new Date().toISOString()`.
* The MongoDB `jobs` collection is a map from the document id (the string form
  of `_id`) to the stored document; `findOneAndUpdate` becomes a functional
  update of that map.
* Job statuses are plain strings, as they are at runtime in JavaScript; the
  repository's transition table uses the key `"generating"` while the newer
  pipeline requests `"generating_code"`, and modelling statuses as strings
  keeps both representable exactly as in the source.
-/

/-- Runtime shape of `job.output` (`JobOutput` in `types`): every field can be
absent at runtime because `updateJobWithCode` / `completeJobWithVideo` create
the nested object with a single dotted `$set` path. -/
structure JobOutput where
  code : Option String
  explanation : Option String
  videoUrl : Option String
deriving Repr, DecidableEq

/-- Runtime shape of the `error` object written by `JobRepository.failJob`.
The object literal in `failJob` has exactly the keys `message`, `logs`,
`stage`, `timestamp`; it never writes a `type` key, so `errType` (modelling
the optional `type` field of the `JobError` interface) is `none` on every
error the repository produces. -/
structure StoredError where
  message : String
  logs : String
  stage : String
  timestamp : String
  errType : Option String
deriving Repr, DecidableEq

/-- A stored MongoDB job document: all fields of the `Job` interface except
`id` (the document `_id` is the key of the store map). Optional fields model
JavaScript `undefined`/absent keys. -/
structure JobDoc where
  status : String
  prompt : String
  stylePreset : String
  createdAt : String
  updatedAt : String
  queuedAt : Option String := none
  codeGenerationStartedAt : Option String := none
  renderingStartedAt : Option String := none
  attemptNumber : Option Nat := none
  maxAttempts : Option Nat := none
  parentJobId : Option String := none
  autoFixAttemptCount : Option Nat := none
  isAutoFixJob : Option Bool := none
  originalFailedJobId : Option String := none
  lastFailedCode : Option String := none
  lastErrorLogs : Option String := none
  output : Option JobOutput := none
  error : Option StoredError := none
  progress : Option Nat := none
  progressMessage : Option String := none
deriving Repr, DecidableEq

/-- Runtime shape of the `Job` value returned by the repository to callers
(the full `Job` interface; fields the repository does not copy are absent,
i.e. `none`). -/
structure Job where
  id : String
  status : String
  prompt : String
  stylePreset : String
  createdAt : String
  updatedAt : String
  queuedAt : Option String := none
  codeGenerationStartedAt : Option String := none
  renderingStartedAt : Option String := none
  attemptNumber : Option Nat := none
  maxAttempts : Option Nat := none
  parentJobId : Option String := none
  autoFixAttemptCount : Option Nat := none
  isAutoFixJob : Option Bool := none
  originalFailedJobId : Option String := none
  lastFailedCode : Option String := none
  lastErrorLogs : Option String := none
  output : Option JobOutput := none
  error : Option StoredError := none
  progress : Option Nat := none
  progressMessage : Option String := none
  isCacheHit : Option Bool := none
  cachedFromJobId : Option String := none
deriving Repr, DecidableEq

/-- The `jobs` collection: document id (string form of `_id`) to document. -/
def JobStore : Type := String → Option JobDoc

/-- Model of `ObjectId.isValid`: a 24-character hexadecimal string. -/
def isValidObjectId (s : String) : Bool :=
  s.length == 24 && s.data.all fun c =>
    c.isDigit || ('a' ≤ c && c ≤ 'f') || ('A' ≤ c && c ≤ 'F')

/-- `JobRepository.documentToJob`: builds the returned `Job` object with
exactly ten keys (`id`, `status`, `prompt`, `stylePreset`, `createdAt`,
`updatedAt`, `output`, `error`, `progress`, `progressMessage`); every other
field of the `Job` interface is absent (`none`) on the result. -/
def documentToJob (docId : String) (doc : JobDoc) : Job :=
  { id := docId
    status := doc.status
    prompt := doc.prompt
    stylePreset := doc.stylePreset
    createdAt := doc.createdAt
    updatedAt := doc.updatedAt
    output := doc.output
    error := doc.error
    progress := doc.progress
    progressMessage := doc.progressMessage }

/-- `JobRepository.findJobById`: `null` on a malformed id or a missing
document, otherwise the projection of the stored document. -/
def findJobById (store : JobStore) (jobId : String) : Option Job :=
  if !isValidObjectId jobId then none
  else
    match store jobId with
    | none => none
    | some doc => some (documentToJob jobId doc)

/-- The repository's transition table (`validTransitions` in
`updateJobStatus`'s helper `isValidTransition`), with its literal string
keys and values. -/
def validTransitions : List (String × List String) :=
  [("queued", ["generating", "failed"]),
   ("generating", ["rendering", "failed"]),
   ("rendering", ["done", "failed"]),
   ("done", []),
   ("failed", [])]

/-- `JobRepository.isValidTransition`:
`validTransitions[currentStatus]?.includes(newStatus) ?? false`; a current
status that is not a key of the table (e.g. `"generating_code"`) yields
`false`. -/
def isValidTransition (currentStatus newStatus : String) : Bool :=
  match validTransitions.lookup currentStatus with
  | some targets => targets.contains newStatus
  | none => false

/-- `JobRepository.updateJobStatus`. Returns the repository's result
(`Except` models the thrown `Invalid status transition` error, `Option`
models the `null` returns) together with the collection after the call.
`now` stands for the single `new Date().toISOString()` evaluated for
`updatedAt`. -/
def updateJobStatus (store : JobStore) (jobId status : String)
    (progress : Option Nat) (progressMessage : Option String) (now : String) :
    Except String (Option Job) × JobStore :=
  if !isValidObjectId jobId then (Except.ok none, store)
  else
    match store jobId with
    | none => (Except.ok none, store)
    | some doc =>
      -- `findJobById` returns `documentToJob jobId doc`, whose `status`
      -- equals `doc.status`.
      if !isValidTransition doc.status status then
        (Except.error
          ("Invalid status transition from " ++ doc.status ++ " to " ++ status),
         store)
      else
        let doc' : JobDoc :=
          { doc with
            status := status
            updatedAt := now
            progress := if progress.isSome then progress else doc.progress
            progressMessage :=
              if progressMessage.isSome then progressMessage
              else doc.progressMessage }
        (Except.ok (some (documentToJob jobId doc')),
         fun k => if k = jobId then some doc' else store k)

/-- `JobRepository.updateJobWithCode`: only permitted while the job's stored
status is the string `"generating"`; otherwise returns `null` and leaves the
store unchanged. On success `$set`s `output.code` and `updatedAt`. -/
def updateJobWithCode (store : JobStore) (jobId code : String) (now : String) :
    Option Job × JobStore :=
  if !isValidObjectId jobId then (none, store)
  else
    match store jobId with
    | none => (none, store)
    | some doc =>
      if doc.status ≠ "generating" then (none, store)
      else
        let output' : Option JobOutput :=
          match doc.output with
          | some o => some { o with code := some code }
          | none => some { code := some code, explanation := none, videoUrl := none }
        let doc' : JobDoc := { doc with output := output', updatedAt := now }
        (some (documentToJob jobId doc'),
         fun k => if k = jobId then some doc' else store k)

/-- `JobRepository.completeJobWithVideo`: unconditionally `$set`s
`status: done`, `updatedAt`, `output.videoUrl` and `progress: 100` on the
matching document — the current status is never consulted. -/
def completeJobWithVideo (store : JobStore) (jobId videoUrl now : String) :
    Option Job × JobStore :=
  if !isValidObjectId jobId then (none, store)
  else
    match store jobId with
    | none => (none, store)
    | some doc =>
      let output' : Option JobOutput :=
        match doc.output with
        | some o => some { o with videoUrl := some videoUrl }
        | none => some { code := none, explanation := none, videoUrl := some videoUrl }
      let doc' : JobDoc :=
        { doc with status := "done", updatedAt := now, output := output',
                   progress := some 100 }
      (some (documentToJob jobId doc'),
       fun k => if k = jobId then some doc' else store k)

/-- JavaScript `x || d` on an optional string argument: the default is used
when the argument is absent (`undefined`) or the empty string (falsy). -/
def jsOrString : Option String → String → String
  | some s, d => if s = "" then d else s
  | none, d => d

/-- Default user-facing message written by `failJob`. -/
def defaultFailMessage : String :=
  "Animation generation failed. Please check your prompt and try again."

/-- Default diagnostic logs written by `failJob`. -/
def defaultFailLogs : String :=
  "Manim encountered an error during rendering. This could be due to invalid mathematical syntax or unsupported operations."

/-- `JobRepository.failJob(jobId, errorMessage?, errorLogs?, errorStage?)`:
unconditionally `$set`s `status: failed`, `updatedAt`, the `error` object
(`message`/`logs`/`stage` via `||`-defaulting, plus `timestamp`) and
`progress: 0` on the matching document. The function declares exactly four
parameters and the `error` object literal carries no `type` key. `now`
stands for the `new Date().toISOString()` calls. -/
def failJob (store : JobStore) (jobId : String)
    (errorMessage errorLogs errorStage : Option String) (now : String) :
    Option Job × JobStore :=
  if !isValidObjectId jobId then (none, store)
  else
    match store jobId with
    | none => (none, store)
    | some doc =>
      let doc' : JobDoc :=
        { doc with
          status := "failed"
          updatedAt := now
          error := some
            { message := jsOrString errorMessage defaultFailMessage
              logs := jsOrString errorLogs defaultFailLogs
              stage := jsOrString errorStage "rendering"
              timestamp := now
              errType := none }
          progress := some 0 }
      (some (documentToJob jobId doc'),
       fun k => if k = jobId then some doc' else store k)

/-- A call site that passes a fifth `errorType` argument (as the submit and
status endpoints do): JavaScript ignores arguments beyond a function's
declared parameters, so the call is exactly `failJob` on the first four. -/
def failJobWithType (store : JobStore) (jobId : String)
    (errorMessage errorLogs errorStage _errorType : Option String)
    (now : String) : Option Job × JobStore :=
  failJob store jobId errorMessage errorLogs errorStage now

/-- HTTP response of the submit endpoint, reduced to the status code and the
`error` string of the JSON body. -/
structure HttpResponse where
  status : Nat
  errorMsg : Option String
deriving Repr, DecidableEq

/-- JavaScript `x >= n` when `x` may be `undefined`: `undefined >= n` is
`false` (NaN comparison). -/
def jsGEOptNat : Option Nat → Nat → Bool
  | some x, n => decide (n ≤ x)
  | none, _ => false

/-- JavaScript truthiness of an optional string (`undefined` and `""` are
falsy). -/
def jsTruthyStrOpt : Option String → Bool
  | none => false
  | some s => s ≠ ""

/-- Auto-fix branch of the submit endpoint (`POST /api/jobs/submit`, the
`if (autoFixJobId)` block), modelled from the handler's source after the
rate-limit and body checks: resolve the referenced job through
`jobRepository.findJobById`; 404 if missing; 400 when
`originalJob.autoFixAttemptCount >= 2`; 400 when
`!originalJob.error || !originalJob.output?.code`; otherwise create the new
auto-fix job document (with the database assigning `newId`) and respond 201.
The new document's `autoFixAttemptCount` is
`originalJob.autoFixAttemptCount + 1`; when the field is absent on
`originalJob` the JavaScript value is `NaN` (here `none`), which — like
`none` — fails every later `>= 2` test. `now` stands for the single
`new Date().toISOString()` of the branch. -/
def postSubmitAutoFix (store : JobStore) (autoFixJobId : String)
    (now newId : String) : HttpResponse × JobStore :=
  match findJobById store autoFixJobId with
  | none => ({ status := 404, errorMsg := some "Original job not found" }, store)
  | some originalJob =>
    if jsGEOptNat originalJob.autoFixAttemptCount 2 then
      ({ status := 400, errorMsg := some "Auto-fix attempts exhausted" }, store)
    else if !originalJob.error.isSome
        || !jsTruthyStrOpt (originalJob.output.bind (·.code)) then
      ({ status := 400,
         errorMsg := some "Cannot auto-fix: missing error or code information" },
       store)
    else
      let newDoc : JobDoc :=
        { status := "queued"
          prompt := originalJob.prompt
          stylePreset := originalJob.stylePreset
          createdAt := now
          updatedAt := now
          queuedAt := some now
          attemptNumber := originalJob.attemptNumber
          parentJobId := originalJob.parentJobId
          maxAttempts := originalJob.maxAttempts
          autoFixAttemptCount := originalJob.autoFixAttemptCount.map (· + 1)
          isAutoFixJob := some true
          originalFailedJobId := some autoFixJobId
          lastFailedCode := originalJob.output.bind (·.code)
          lastErrorLogs := originalJob.error.map (·.logs)
          progress := some 0 }
      ({ status := 201, errorMsg := none },
       fun k => if k = newId then some newDoc else store k)

/-- Characterization of the repository's transition table over arbitrary
status strings: the table allows exactly six pairs, all phrased with the
string `"generating"`; any other pair — including every pair naming
`"generating_code"` — is rejected. -/
theorem isValidTransition_iff (cur new : String) :
    isValidTransition cur new = true ↔
      ((cur = "queued" ∧ new = "generating") ∨
       (cur = "queued" ∧ new = "failed") ∨
       (cur = "generating" ∧ new = "rendering") ∨
       (cur = "generating" ∧ new = "failed") ∨
       (cur = "rendering" ∧ new = "done") ∨
       (cur = "rendering" ∧ new = "failed")) := by
  by_cases h1 : cur = "queued"
  · subst h1
    simp [isValidTransition, validTransitions, List.lookup]
  · by_cases h2 : cur = "generating"
    · subst h2
      simp [isValidTransition, validTransitions, List.lookup]
    · by_cases h3 : cur = "rendering"
      · subst h3
        simp [isValidTransition, validTransitions, List.lookup]
      · by_cases h4 : cur = "done"
        · subst h4
          simp [isValidTransition, validTransitions, List.lookup]
        · by_cases h5 : cur = "failed"
          · subst h5
            simp [isValidTransition, validTransitions, List.lookup]
          · simp only [isValidTransition, validTransitions, List.lookup,
              show (cur == "queued") = false by simpa using h1,
              show (cur == "generating") = false by simpa using h2,
              show (cur == "rendering") = false by simpa using h3,
              show (cur == "done") = false by simpa using h4,
              show (cur == "failed") = false by simpa using h5]
            simp [h1, h2, h3, h4, h5]

/-- C1 (amended). For a stored job and a requested status pair,
`updateJobStatus` succeeds exactly for the six transitions of the table —
`queued → generating`, `queued → failed`, `generating → rendering`,
`generating → failed`, `rendering → done`, `rendering → failed` (the
code-generation phase is spelled `"generating"`, not `"generating_code"`) —
atomically updating status, progress, message and `updatedAt`; every other
requested pair (including every pair naming `"generating_code"`, and e.g.
`done → rendering`, `failed → queued`) fails with the thrown
`Invalid status transition` error and leaves the stored document unchanged. -/
theorem updateJobStatus_transition_table (store : JobStore) (jobId : String)
    (doc : JobDoc) (newStatus : String) (progress : Option Nat)
    (progressMessage : Option String) (now : String)
    (hvalid : isValidObjectId jobId = true) (hdoc : store jobId = some doc) :
    (isValidTransition doc.status newStatus = true ↔
      ((doc.status = "queued" ∧ newStatus = "generating") ∨
       (doc.status = "queued" ∧ newStatus = "failed") ∨
       (doc.status = "generating" ∧ newStatus = "rendering") ∨
       (doc.status = "generating" ∧ newStatus = "failed") ∨
       (doc.status = "rendering" ∧ newStatus = "done") ∨
       (doc.status = "rendering" ∧ newStatus = "failed"))) ∧
    (isValidTransition doc.status newStatus = true →
      updateJobStatus store jobId newStatus progress progressMessage now =
        (Except.ok (some (documentToJob jobId
          { doc with
            status := newStatus
            updatedAt := now
            progress := if progress.isSome then progress else doc.progress
            progressMessage :=
              if progressMessage.isSome then progressMessage
              else doc.progressMessage })),
         fun k => if k = jobId then
           some { doc with
             status := newStatus
             updatedAt := now
             progress := if progress.isSome then progress else doc.progress
             progressMessage :=
               if progressMessage.isSome then progressMessage
               else doc.progressMessage }
           else store k)) ∧
    (isValidTransition doc.status newStatus = false →
      updateJobStatus store jobId newStatus progress progressMessage now =
        (Except.error
          ("Invalid status transition from " ++ doc.status ++ " to " ++ newStatus),
         store)) := by
  refine ⟨isValidTransition_iff doc.status newStatus, ?_, ?_⟩
  · intro hok
    simp [updateJobStatus, hvalid, hdoc, hok]
  · intro hbad
    simp [updateJobStatus, hvalid, hdoc, hbad]

/-- Fixture: a queued job document. -/
def c1Doc : JobDoc :=
  { status := "queued", prompt := "Draw a circle", stylePreset := "Classic",
    createdAt := "2026-01-01T00:00:00.000Z",
    updatedAt := "2026-01-01T00:00:00.000Z",
    queuedAt := some "2026-01-01T00:00:00.000Z",
    attemptNumber := some 1, maxAttempts := some 3,
    autoFixAttemptCount := some 0, progress := some 0 }

/-- Fixture: a well-formed document id. -/
def c1Id : String := "aaaaaaaaaaaaaaaaaaaaaaaa"

/-- Fixture: a collection holding exactly the queued job. -/
def c1Store : JobStore := fun k => if k = c1Id then some c1Doc else none

/-- C1 counterexample. The claim lists `queued → generating_code` as a
transition on which `updateJobStatus` succeeds; on the code, requesting
`"generating_code"` for a queued job throws (`isOk = false`) and the stored
document is unchanged — the table's key for the code-generation phase is
the string `"generating"`. -/
theorem updateJobStatus_generating_code_rejected :
    (updateJobStatus c1Store c1Id "generating_code" (some 25)
        (some "Analyzing prompt and generating Manim code...") "T1").fst.isOk
      = false ∧
    (updateJobStatus c1Store c1Id "generating_code" (some 25)
        (some "Analyzing prompt and generating Manim code...") "T1").snd c1Id
      = some c1Doc ∧
    c1Doc.status = "queued" := by
  refine ⟨by decide, by decide, rfl⟩

/-- C1 witness: the amended theorem applied to the queued fixture and the
allowed request `queued → generating`. -/
theorem updateJobStatus_transition_table_witness :
    updateJobStatus c1Store c1Id "generating" (some 25) none "T1" =
      (Except.ok (some (documentToJob c1Id
        { c1Doc with status := "generating", updatedAt := "T1",
                     progress := some 25 })),
       fun k => if k = c1Id then
         some { c1Doc with status := "generating", updatedAt := "T1",
                           progress := some 25 }
         else c1Store k) := by
  have h := (updateJobStatus_transition_table c1Store c1Id c1Doc "generating"
    (some 25) none "T1" (by decide) (by simp [c1Store])).2.1 (by decide)
  simpa using h

/-- C2 (amended). For a stored job, `failJob` (called with a fifth
`errorType` argument, as the endpoints do) sets the document's status to
`"failed"`, resets `progress` to 0 and writes an `error` object whose
`message`, `logs` and `stage` are the supplied values or the documented
defaults, together with a `timestamp`; the repository's `failJob` declares
only four parameters, so the supplied error type is ignored and the stored
error carries no `type` field (`errType = none`). -/
theorem failJob_sets_failed_error_defaults (store : JobStore) (jobId : String)
    (doc : JobDoc) (m l s t : Option String) (now : String)
    (hvalid : isValidObjectId jobId = true) (hdoc : store jobId = some doc) :
    failJobWithType store jobId m l s t now =
      (some (documentToJob jobId
        { doc with
          status := "failed"
          updatedAt := now
          error := some
            { message := jsOrString m defaultFailMessage
              logs := jsOrString l defaultFailLogs
              stage := jsOrString s "rendering"
              timestamp := now
              errType := none }
          progress := some 0 }),
       fun k => if k = jobId then
         some { doc with
           status := "failed"
           updatedAt := now
           error := some
             { message := jsOrString m defaultFailMessage
               logs := jsOrString l defaultFailLogs
               stage := jsOrString s "rendering"
               timestamp := now
               errType := none }
           progress := some 0 }
         else store k) := by
  simp [failJobWithType, failJob, hvalid, hdoc]

/-- Fixture: a rendering-phase job document. -/
def c2Doc : JobDoc :=
  { status := "rendering", prompt := "Draw a square", stylePreset := "Dark",
    createdAt := "2026-01-01T00:00:00.000Z",
    updatedAt := "2026-01-01T00:00:10.000Z",
    attemptNumber := some 1, maxAttempts := some 3,
    autoFixAttemptCount := some 0, progress := some 50 }

/-- Fixture: a well-formed document id. -/
def c2Id : String := "bbbbbbbbbbbbbbbbbbbbbbbb"

/-- Fixture: a collection holding exactly the rendering job. -/
def c2Store : JobStore := fun k => if k = c2Id then some c2Doc else none

/-- C2 counterexample. The claim says the stored error's `type` field is the
supplied error type; calling `failJob` with error type `"timeout"` stores an
error object whose `type` field is absent (`errType = none`), because the
repository's `failJob` has no fifth parameter and its error literal writes
no `type` key. -/
theorem failJob_ignores_error_type :
    ((failJobWithType c2Store c2Id (some "Rendering took too long")
        (some "raw logs") (some "rendering") (some "timeout") "T9").fst.bind
      (·.error)) =
      some { message := "Rendering took too long", logs := "raw logs",
             stage := "rendering", timestamp := "T9", errType := none } := by
  decide

/-- C2 witness: the amended theorem applied to the rendering fixture with
all optional arguments absent, exercising the documented defaults. -/
theorem failJob_sets_failed_error_defaults_witness :
    failJobWithType c2Store c2Id none none none none "T9" =
      (some (documentToJob c2Id
        { c2Doc with
          status := "failed"
          updatedAt := "T9"
          error := some
            { message := defaultFailMessage, logs := defaultFailLogs,
              stage := "rendering", timestamp := "T9", errType := none }
          progress := some 0 }),
       fun k => if k = c2Id then
         some { c2Doc with
           status := "failed"
           updatedAt := "T9"
           error := some
             { message := defaultFailMessage, logs := defaultFailLogs,
               stage := "rendering", timestamp := "T9", errType := none }
           progress := some 0 }
         else c2Store k) := by
  have h := failJob_sets_failed_error_defaults c2Store c2Id c2Doc
    none none none none "T9" (by decide) (by simp [c2Store])
  simpa [jsOrString] using h

/-- C4 (amended). Once a job's stored status is `"done"` or `"failed"`:
`updateJobStatus` fails with the thrown `Invalid status transition` error
and `updateJobWithCode` returns `null`, each leaving the stored document
unchanged (the terminal rows of the transition table are empty); but
`completeJobWithVideo` and `failJob` perform no status check and overwrite
the terminal record unconditionally — `failJob` turns a `done` job into a
`failed` one and `completeJobWithVideo` turns a `failed` job into a `done`
one. -/
theorem terminal_job_mutation_behavior (store : JobStore) (jobId : String)
    (doc : JobDoc) (newStatus code videoUrl now : String)
    (p : Option Nat) (pm m l s : Option String)
    (hvalid : isValidObjectId jobId = true) (hdoc : store jobId = some doc)
    (hterm : doc.status = "done" ∨ doc.status = "failed") :
    (updateJobStatus store jobId newStatus p pm now =
      (Except.error
        ("Invalid status transition from " ++ doc.status ++ " to " ++ newStatus),
       store)) ∧
    (updateJobWithCode store jobId code now = (none, store)) ∧
    ((completeJobWithVideo store jobId videoUrl now).snd jobId =
      some { doc with
        status := "done", updatedAt := now, progress := some 100,
        output :=
          match doc.output with
          | some o => some { o with videoUrl := some videoUrl }
          | none => some { code := none, explanation := none,
                           videoUrl := some videoUrl } }) ∧
    ((failJob store jobId m l s now).snd jobId =
      some { doc with
        status := "failed", updatedAt := now, progress := some 0,
        error := some
          { message := jsOrString m defaultFailMessage
            logs := jsOrString l defaultFailLogs
            stage := jsOrString s "rendering"
            timestamp := now
            errType := none } }) := by
  have hbad : isValidTransition doc.status newStatus = false := by
    rcases hterm with h | h <;>
      simp [isValidTransition, validTransitions, List.lookup, h]
  have hne : ¬ doc.status = "generating" := by
    rcases hterm with h | h <;> simp [h]
  refine ⟨?_, ?_, ?_, ?_⟩
  · simp [updateJobStatus, hvalid, hdoc, hbad]
  · simp [updateJobWithCode, hvalid, hdoc, hne]
  · simp [completeJobWithVideo, hvalid, hdoc]
  · simp [failJob, hvalid, hdoc]

/-- Fixture: a completed (`done`) job document with output. -/
def c4Doc : JobDoc :=
  { status := "done", prompt := "Draw a triangle", stylePreset := "Minimalist",
    createdAt := "2026-01-01T00:00:00.000Z",
    updatedAt := "2026-01-01T00:01:00.000Z",
    attemptNumber := some 1, maxAttempts := some 3,
    autoFixAttemptCount := some 0, progress := some 100,
    output := some { code := some "from manim import *",
                     explanation := some "A triangle.",
                     videoUrl := some "/videos/cccccccccccccccccccccccc.mp4" } }

/-- Fixture: a well-formed document id. -/
def c4Id : String := "cccccccccccccccccccccccc"

/-- Fixture: a collection holding exactly the done job. -/
def c4Store : JobStore := fun k => if k = c4Id then some c4Doc else none

/-- C4 counterexample. The claim says no repository operation changes any
field of a terminal record; `failJob` on a `done` job overwrites it — its
stored status becomes `"failed"` and its progress is reset to 0. -/
theorem failJob_overwrites_done_job :
    c4Doc.status = "done" ∧
    ((failJob c4Store c4Id none none none "T9").snd c4Id).map (·.status) =
      some "failed" ∧
    ((failJob c4Store c4Id none none none "T9").snd c4Id).bind (·.progress) =
      some 0 := by
  refine ⟨rfl, by decide, by decide⟩

/-- C4 witness: the amended theorem applied to the done fixture, projected
to the `updateJobStatus` conjunct (the transition `done → rendering` throws
and the store is unchanged). -/
theorem terminal_job_mutation_behavior_witness :
    updateJobStatus c4Store c4Id "rendering" none none "T9" =
      (Except.error "Invalid status transition from done to rendering",
       c4Store) := by
  have h := (terminal_job_mutation_behavior c4Store c4Id c4Doc "rendering"
    "x" "y" "T9" none none none none none (by decide) (by simp [c4Store])
    (Or.inl rfl)).1
  simpa using h

/-- Fixture: a failed original job whose stored `autoFixAttemptCount` is 2
(auto-fix attempts exhausted per the spec), with stored error and code. -/
def c3Doc : JobDoc :=
  { status := "failed", prompt := "Draw a circle", stylePreset := "Classic",
    createdAt := "2026-01-01T00:00:00.000Z",
    updatedAt := "2026-01-01T00:01:00.000Z",
    attemptNumber := some 1, maxAttempts := some 3,
    autoFixAttemptCount := some 2,
    output := some { code := some "from manim import *",
                     explanation := none, videoUrl := none },
    error := some { message := "Manim encountered an error while rendering. Check your code syntax.",
                    logs := "Traceback: NameError", stage := "rendering",
                    timestamp := "2026-01-01T00:01:00.000Z", errType := none },
    progress := some 0 }

/-- Fixture: a well-formed document id for the original failed job. -/
def c3Id : String := "dddddddddddddddddddddddd"

/-- Fixture: the database-assigned id of the would-be auto-fix job. -/
def c3NewId : String := "eeeeeeeeeeeeeeeeeeeeeeee"

/-- Fixture: a collection holding exactly the exhausted failed job. -/
def c3Store : JobStore := fun k => if k = c3Id then some c3Doc else none

/-- C3: evaluation of the submit endpoint's auto-fix branch at the failing
input. The referenced original job's stored `autoFixAttemptCount` is 2, yet
the endpoint responds 201 and creates a new auto-fix job instead of the
claimed 400: the exhaustion check reads `originalJob.autoFixAttemptCount`
from `findJobById`, whose `documentToJob` projection never returns that
field, so the JavaScript comparison `undefined >= 2` is false for every
stored count. -/
theorem autofix_exhausted_not_rejected :
    c3Doc.autoFixAttemptCount = some 2 ∧
    (findJobById c3Store c3Id).map (·.autoFixAttemptCount) = some none ∧
    (postSubmitAutoFix c3Store c3Id "T2" c3NewId).fst =
      { status := 201, errorMsg := none } ∧
    ((postSubmitAutoFix c3Store c3Id "T2" c3NewId).snd c3NewId).map
      (·.isAutoFixJob) = some (some true) := by
  refine ⟨rfl, by decide, by decide, by decide⟩

/-- C10. Every `Job` returned by `findJobById` carries exactly the ten
fields `documentToJob` copies (`id`, `status`, `prompt`, `stylePreset`,
`createdAt`, `updatedAt`, `output`, `error`, `progress`,
`progressMessage`); the phase-entry timestamps and the retry/auto-fix
bookkeeping fields are absent (`none`) on the returned record, whatever the
stored document holds. -/
theorem findJobById_projects_ten_fields (store : JobStore) (jobId : String)
    (job : Job) (h : findJobById store jobId = some job) :
    job.queuedAt = none ∧ job.codeGenerationStartedAt = none ∧
    job.renderingStartedAt = none ∧ job.attemptNumber = none ∧
    job.maxAttempts = none ∧ job.parentJobId = none ∧
    job.autoFixAttemptCount = none ∧ job.isAutoFixJob = none ∧
    job.originalFailedJobId = none ∧ job.lastFailedCode = none ∧
    job.lastErrorLogs = none ∧ job.isCacheHit = none ∧
    job.cachedFromJobId = none ∧
    ∃ doc, store jobId = some doc ∧
      job.id = jobId ∧ job.status = doc.status ∧ job.prompt = doc.prompt ∧
      job.stylePreset = doc.stylePreset ∧ job.createdAt = doc.createdAt ∧
      job.updatedAt = doc.updatedAt ∧ job.output = doc.output ∧
      job.error = doc.error ∧ job.progress = doc.progress ∧
      job.progressMessage = doc.progressMessage := by
  unfold findJobById at h
  split at h
  · exact absurd h (by simp)
  · obtain ⟨doc, hdoc⟩ : ∃ d, store jobId = some d := by
      cases hs : store jobId with
      | none => rw [hs] at h; exact absurd h (by simp)
      | some d => exact ⟨d, rfl⟩
    rw [hdoc] at h
    obtain rfl : job = documentToJob jobId doc := (Option.some.inj h).symm
    exact ⟨rfl, rfl, rfl, rfl, rfl, rfl, rfl, rfl, rfl, rfl, rfl, rfl, rfl,
      doc, hdoc, rfl, rfl, rfl, rfl, rfl, rfl, rfl, rfl, rfl, rfl⟩

/-- Fixture: a document populated with every bookkeeping field, to show the
projection drops all of them. -/
def c10Doc : JobDoc :=
  { status := "rendering", prompt := "Plot a sine wave",
    stylePreset := "3Blue1Brown",
    createdAt := "2026-01-02T00:00:00.000Z",
    updatedAt := "2026-01-02T00:00:20.000Z",
    queuedAt := some "2026-01-02T00:00:00.000Z",
    codeGenerationStartedAt := some "2026-01-02T00:00:01.000Z",
    renderingStartedAt := some "2026-01-02T00:00:15.000Z",
    attemptNumber := some 2, maxAttempts := some 3,
    parentJobId := some "ffffffffffffffffffffffff",
    autoFixAttemptCount := some 1, isAutoFixJob := some true,
    originalFailedJobId := some "abcdefabcdefabcdefabcdef",
    lastFailedCode := some "from manim import *",
    lastErrorLogs := some "Traceback", progress := some 50,
    progressMessage := some "Rendering 3D scene in sandbox..." }

/-- Fixture: a well-formed document id. -/
def c10Id : String := "012345678901234567890123"

/-- Fixture: a collection holding exactly the fully-populated document. -/
def c10Store : JobStore := fun k => if k = c10Id then some c10Doc else none

/-- C10 witness: the projection theorem applied to the fully-populated
fixture, projected to the `autoFixAttemptCount` conjunct. -/
theorem findJobById_projects_ten_fields_witness :
    (documentToJob c10Id c10Doc).autoFixAttemptCount = none ∧
    c10Doc.autoFixAttemptCount = some 1 := by
  refine ⟨?_, rfl⟩
  exact (findJobById_projects_ten_fields c10Store c10Id
    (documentToJob c10Id c10Doc) (by decide)).2.2.2.2.2.2.1

/-- A rate-limit window record (`RequestRecord`). -/
structure RequestRecord where
  count : Nat
  resetTime : Nat
deriving Repr, DecidableEq

/-- Return value of `RateLimiter.checkLimit` (`retryAfter` is present only
on the denied branch). -/
structure CheckResult where
  allowed : Bool
  remaining : Nat
  resetTime : Nat
  retryAfter : Option Nat
deriving Repr, DecidableEq

/-- The `RateLimiter` instance state: its `Map` (as an insertion-ordered
association list, mirroring JavaScript `Map` semantics) and `lastCleanup`. -/
structure RateLimiterState where
  store : List (String × RequestRecord)
  lastCleanup : Nat
deriving Repr, DecidableEq

/-- `RATE_LIMIT_CONFIGS.jobSubmission.maxRequests`. -/
def rlMaxRequests : Nat := 10

/-- `RATE_LIMIT_CONFIGS.jobSubmission.windowMs` (5 minutes). -/
def rlWindowMs : Nat := 300000

/-- `CLEANUP_INTERVAL_MS` (10 minutes). -/
def rlCleanupIntervalMs : Nat := 600000

/-- `Map.get`: first entry with the key. -/
def mapGet (m : List (String × RequestRecord)) (k : String) :
    Option RequestRecord :=
  match m with
  | [] => none
  | (k', v) :: rest => if k' = k then some v else mapGet rest k

/-- `Map.set`: replace in place when the key exists (JavaScript `Map.set`
keeps the original insertion position), append otherwise. -/
def mapSet (m : List (String × RequestRecord)) (k : String)
    (v : RequestRecord) : List (String × RequestRecord) :=
  match m with
  | [] => [(k, v)]
  | (k', v') :: rest =>
    if k' = k then (k', v) :: rest else (k', v') :: mapSet rest k v

/-- `RateLimiter.cleanup(now)`: delete every record with
`now >= record.resetTime`, then set `lastCleanup := now`. -/
def rlCleanup (st : RateLimiterState) (now : Nat) : RateLimiterState :=
  { store := st.store.filter fun kv => decide (now < kv.2.resetTime)
    lastCleanup := now }

/-- `Math.ceil(a / b)` for natural `a`, positive `b`. -/
def ceilDiv (a b : Nat) : Nat := (a + b - 1) / b

/-- `RateLimiter.checkLimit(ip)` for the sole endpoint category
`jobSubmission`, with `now` the `Date.now()` of the call. Natural-number
subtraction models the JavaScript comparisons exactly on the reachable
states (`now - lastCleanup > interval` is false in JavaScript whenever the
difference is negative, as is truncated subtraction; the denied branch's
`Math.ceil((resetTime - now)/1000)` runs only with `now < resetTime`; and
`Math.max(0, max - count)` equals truncated subtraction). -/
def checkLimit (st : RateLimiterState) (ip : String) (now : Nat) :
    CheckResult × RateLimiterState :=
  let st1 := if now - st.lastCleanup > rlCleanupIntervalMs then
    rlCleanup st now else st
  let key := ip ++ ":jobSubmission"
  let (record, store1) :=
    match mapGet st1.store key with
    | some r =>
      if now ≥ r.resetTime then
        let r0 : RequestRecord := { count := 0, resetTime := now + rlWindowMs }
        (r0, mapSet st1.store key r0)
      else (r, st1.store)
    | none =>
      let r0 : RequestRecord := { count := 0, resetTime := now + rlWindowMs }
      (r0, mapSet st1.store key r0)
  if record.count ≥ rlMaxRequests then
    ({ allowed := false, remaining := 0, resetTime := record.resetTime,
       retryAfter := some (ceilDiv (record.resetTime - now) 1000) },
     { store := store1, lastCleanup := st1.lastCleanup })
  else
    let record' : RequestRecord := { record with count := record.count + 1 }
    ({ allowed := true, remaining := rlMaxRequests - record'.count,
       resetTime := record.resetTime, retryAfter := none },
     { store := mapSet store1 key record', lastCleanup := st1.lastCleanup })

/-- A sequence of `checkLimit` calls at the given times. -/
def runChecks (st : RateLimiterState) (ip : String) :
    List Nat → List CheckResult × RateLimiterState
  | [] => ([], st)
  | t :: ts =>
    let r := checkLimit st ip t
    let rs := runChecks r.snd ip ts
    (r.fst :: rs.fst, rs.snd)

/-- The map key used for a client address. -/
def rlKey (ip : String) : String := ip ++ ":jobSubmission"

theorem runChecks_cons (st : RateLimiterState) (ip : String) (t : Nat)
    (ts : List Nat) :
    runChecks st ip (t :: ts) =
      ((checkLimit st ip t).fst ::
          (runChecks (checkLimit st ip t).snd ip ts).fst,
       (runChecks (checkLimit st ip t).snd ip ts).snd) := rfl

theorem runChecks_append (st : RateLimiterState) (ip : String)
    (xs ys : List Nat) :
    runChecks st ip (xs ++ ys) =
      ((runChecks st ip xs).fst ++
          (runChecks (runChecks st ip xs).snd ip ys).fst,
       (runChecks (runChecks st ip xs).snd ip ys).snd) := by
  induction xs generalizing st with
  | nil => simp [runChecks]
  | cons x xs ih =>
    simp only [List.cons_append, runChecks_cons, ih, List.cons.injEq]

/-- Step lemma: a call on an empty store starts a fresh window and allows
with remaining 9. -/
theorem checkLimit_empty (ip : String) (lc now : Nat) :
    ∃ lc', checkLimit ⟨[], lc⟩ ip now =
      (⟨true, 9, now + rlWindowMs, none⟩,
       ⟨[(rlKey ip, ⟨1, now + rlWindowMs⟩)], lc'⟩) := by
  by_cases hc : now - lc > rlCleanupIntervalMs
  · exact ⟨now, by simp [checkLimit, rlCleanup, hc, mapGet, mapSet,
      rlMaxRequests, rlKey]⟩
  · exact ⟨lc, by simp [checkLimit, hc, mapGet, mapSet, rlMaxRequests,
      rlKey]⟩

/-- Step lemma: a call within a live window with quota left increments the
count. -/
theorem checkLimit_live_incr (ip : String) (lc now c R : Nat)
    (hlive : now < R) (hc : c < rlMaxRequests) :
    ∃ lc', checkLimit ⟨[(rlKey ip, ⟨c, R⟩)], lc⟩ ip now =
      (⟨true, rlMaxRequests - (c + 1), R, none⟩,
       ⟨[(rlKey ip, ⟨c + 1, R⟩)], lc'⟩) := by
  have hnotexp : ¬ now ≥ R := by omega
  have hnotmax : ¬ c ≥ rlMaxRequests := by omega
  by_cases hcl : now - lc > rlCleanupIntervalMs
  · exact ⟨now, by simp [checkLimit, rlCleanup, hcl, mapGet, mapSet, rlKey,
      hlive, hnotexp, hnotmax]⟩
  · exact ⟨lc, by simp [checkLimit, hcl, mapGet, mapSet, rlKey, hnotexp,
      hnotmax]⟩

/-- Step lemma: a call within a live window whose count has reached the
maximum is denied with `retryAfter` the rounded-up seconds to reset. -/
theorem checkLimit_live_denied (ip : String) (lc now c R : Nat)
    (hlive : now < R) (hc : rlMaxRequests ≤ c) :
    ∃ lc', checkLimit ⟨[(rlKey ip, ⟨c, R⟩)], lc⟩ ip now =
      (⟨false, 0, R, some (ceilDiv (R - now) 1000)⟩,
       ⟨[(rlKey ip, ⟨c, R⟩)], lc'⟩) := by
  have hnotexp : ¬ now ≥ R := by omega
  by_cases hcl : now - lc > rlCleanupIntervalMs
  · exact ⟨now, by simp [checkLimit, rlCleanup, hcl, mapGet, mapSet, rlKey,
      hlive, hnotexp, hc]⟩
  · exact ⟨lc, by simp [checkLimit, hcl, mapGet, mapSet, rlKey, hnotexp,
      hc]⟩

/-- Step lemma: a call after the stored window has expired starts a fresh
window and allows with remaining 9. -/
theorem checkLimit_expired (ip : String) (lc now c R : Nat) (hexp : R ≤ now) :
    ∃ lc', checkLimit ⟨[(rlKey ip, ⟨c, R⟩)], lc⟩ ip now =
      (⟨true, 9, now + rlWindowMs, none⟩,
       ⟨[(rlKey ip, ⟨1, now + rlWindowMs⟩)], lc'⟩) := by
  have hexp' : now ≥ R := hexp
  by_cases hcl : now - lc > rlCleanupIntervalMs
  · refine ⟨now, ?_⟩
    have hdrop : ¬ (now < R) := by omega
    simp [checkLimit, rlCleanup, hcl, mapGet, mapSet, rlKey, hdrop,
      rlMaxRequests]
  · exact ⟨lc, by simp [checkLimit, hcl, mapGet, mapSet, rlKey, hexp',
      rlMaxRequests]⟩

/-- Expected results of consecutive in-window calls starting from count
`c`: allowed with decreasing remaining while `c < 10`, denied afterwards. -/
def windowResults (R : Nat) : Nat → List Nat → List CheckResult
  | _, [] => []
  | c, now :: rest =>
    if c < rlMaxRequests then
      ⟨true, rlMaxRequests - (c + 1), R, none⟩ :: windowResults R (c + 1) rest
    else
      ⟨false, 0, R, some (ceilDiv (R - now) 1000)⟩ :: windowResults R c rest

/-- Calls all lying strictly inside the stored window produce
`windowResults` and leave a record with the same reset time. -/
theorem runChecks_in_window (ip : String) (ts : List Nat) :
    ∀ c lc R, (∀ t ∈ ts, t < R) →
    ∃ c' lc', runChecks ⟨[(rlKey ip, ⟨c, R⟩)], lc⟩ ip ts =
      (windowResults R c ts, ⟨[(rlKey ip, ⟨c', R⟩)], lc'⟩) := by
  induction ts with
  | nil => exact fun c lc R _ => ⟨c, lc, rfl⟩
  | cons t ts ih =>
    intro c lc R hts
    have ht : t < R := hts t (by simp)
    have hts' : ∀ x ∈ ts, x < R := fun x hx => hts x (by simp [hx])
    by_cases hc : c < rlMaxRequests
    · obtain ⟨lc1, h1⟩ := checkLimit_live_incr ip lc t c R ht hc
      obtain ⟨c', lc', h2⟩ := ih (c + 1) lc1 R hts'
      refine ⟨c', lc', ?_⟩
      rw [runChecks_cons, h1]
      simp only [h2, windowResults, if_pos hc]
    · obtain ⟨lc1, h1⟩ := checkLimit_live_denied ip lc t c R ht (by omega)
      obtain ⟨c', lc', h2⟩ := ih c lc1 R hts'
      refine ⟨c', lc', ?_⟩
      rw [runChecks_cons, h1]
      simp only [h2, windowResults, if_neg hc]

/-- C7. For a fixed client address starting with no window record, the first
10 calls to `checkLimit` within one window all return `allowed = true` with
`remaining` strictly decreasing 9, 8, ..., 0; the 11th call within the same
window returns `allowed = false` with `remaining = 0` and a positive
`retryAfter` equal to the seconds until window reset rounded up; and the
next call at or after the window's reset time returns `allowed = true` with
`remaining = 9`. -/
theorem checkLimit_fixed_window (ip : String) (lc : Nat)
    (t0 t1 t2 t3 t4 t5 t6 t7 t8 t9 t10 t11 : Nat)
    (h1 : t0 ≤ t1) (h2 : t1 ≤ t2) (h3 : t2 ≤ t3) (h4 : t3 ≤ t4)
    (h5 : t4 ≤ t5) (h6 : t5 ≤ t6) (h7 : t6 ≤ t7) (h8 : t7 ≤ t8)
    (h9 : t8 ≤ t9) (h10 : t9 ≤ t10) (hwin : t10 < t0 + rlWindowMs)
    (hafter : t0 + rlWindowMs ≤ t11) :
    (runChecks ⟨[], lc⟩ ip
        [t0, t1, t2, t3, t4, t5, t6, t7, t8, t9, t10, t11]).fst =
      [⟨true, 9, t0 + rlWindowMs, none⟩,
       ⟨true, 8, t0 + rlWindowMs, none⟩,
       ⟨true, 7, t0 + rlWindowMs, none⟩,
       ⟨true, 6, t0 + rlWindowMs, none⟩,
       ⟨true, 5, t0 + rlWindowMs, none⟩,
       ⟨true, 4, t0 + rlWindowMs, none⟩,
       ⟨true, 3, t0 + rlWindowMs, none⟩,
       ⟨true, 2, t0 + rlWindowMs, none⟩,
       ⟨true, 1, t0 + rlWindowMs, none⟩,
       ⟨true, 0, t0 + rlWindowMs, none⟩,
       ⟨false, 0, t0 + rlWindowMs,
        some (ceilDiv (t0 + rlWindowMs - t10) 1000)⟩,
       ⟨true, 9, t11 + rlWindowMs, none⟩] ∧
    0 < ceilDiv (t0 + rlWindowMs - t10) 1000 := by
  constructor
  · obtain ⟨lc1, h0⟩ := checkLimit_empty ip lc t0
    have hmem : ∀ x ∈ [t1, t2, t3, t4, t5, t6, t7, t8, t9, t10],
        x < t0 + rlWindowMs := by
      intro x hx
      simp only [List.mem_cons, List.not_mem_nil, or_false] at hx
      rcases hx with rfl | rfl | rfl | rfl | rfl | rfl | rfl | rfl | rfl |
        rfl <;> omega
    obtain ⟨c', lc', hmid⟩ := runChecks_in_window ip
      [t1, t2, t3, t4, t5, t6, t7, t8, t9, t10] 1 lc1 (t0 + rlWindowMs) hmem
    obtain ⟨lc'', hfin⟩ := checkLimit_expired ip lc' t11 c'
      (t0 + rlWindowMs) hafter
    show (runChecks ⟨[], lc⟩ ip
      (t0 :: ([t1, t2, t3, t4, t5, t6, t7, t8, t9, t10] ++ [t11]))).fst = _
    rw [runChecks_cons, h0, runChecks_append, hmid, runChecks_cons, hfin]
    simp [windowResults, rlMaxRequests, runChecks]
  · have hd : 1 ≤ t0 + rlWindowMs - t10 := by omega
    unfold ceilDiv
    omega

/-- C7 witness: the window theorem applied to calls at milliseconds
0, 1, ..., 10 and a final call at the window's reset time 300000. -/
theorem checkLimit_fixed_window_witness :
    (runChecks ⟨[], 0⟩ "1.2.3.4"
        [0, 1, 2, 3, 4, 5, 6, 7, 8, 9, 10, 300000]).fst =
      [⟨true, 9, 300000, none⟩, ⟨true, 8, 300000, none⟩,
       ⟨true, 7, 300000, none⟩, ⟨true, 6, 300000, none⟩,
       ⟨true, 5, 300000, none⟩, ⟨true, 4, 300000, none⟩,
       ⟨true, 3, 300000, none⟩, ⟨true, 2, 300000, none⟩,
       ⟨true, 1, 300000, none⟩, ⟨true, 0, 300000, none⟩,
       ⟨false, 0, 300000, some 300⟩, ⟨true, 9, 600000, none⟩] := by
  have h := (checkLimit_fixed_window "1.2.3.4" 0 0 1 2 3 4 5 6 7 8 9 10
    300000 (by omega) (by omega) (by omega) (by omega) (by omega) (by omega)
    (by omega) (by omega) (by omega) (by omega) (by decide) (by decide)).1
  simpa [rlWindowMs, ceilDiv] using h

/-- UTF-8 encoding of one character (the encoding Node's
`crypto.update(string)` applies to its input). -/
def utf8EncodeChar (c : Char) : List Nat :=
  let n := c.toNat
  if n < 128 then [n]
  else if n < 2048 then
    [192 ||| (n >>> 6), 128 ||| (n &&& 63)]
  else if n < 65536 then
    [224 ||| (n >>> 12), 128 ||| ((n >>> 6) &&& 63), 128 ||| (n &&& 63)]
  else
    [240 ||| (n >>> 18), 128 ||| ((n >>> 12) &&& 63),
     128 ||| ((n >>> 6) &&& 63), 128 ||| (n &&& 63)]

/-- UTF-8 bytes of a string. -/
def utf8Bytes (s : String) : List Nat :=
  (s.data.map utf8EncodeChar).flatten

/-- Truncation to a 32-bit word. -/
def w32 (n : Nat) : Nat := n % 4294967296

/-- 32-bit right rotation. -/
def rotr (n x : Nat) : Nat := w32 ((x >>> n) ||| (x <<< (32 - n)))

/-- SHA-256 Ch function. -/
def sha2Ch (x y z : Nat) : Nat := (x &&& y) ^^^ ((x ^^^ 4294967295) &&& z)

/-- SHA-256 Maj function. -/
def sha2Maj (x y z : Nat) : Nat := (x &&& y) ^^^ (x &&& z) ^^^ (y &&& z)

/-- SHA-256 Σ0. -/
def sha2S0 (x : Nat) : Nat := rotr 2 x ^^^ rotr 13 x ^^^ rotr 22 x

/-- SHA-256 Σ1. -/
def sha2S1 (x : Nat) : Nat := rotr 6 x ^^^ rotr 11 x ^^^ rotr 25 x

/-- SHA-256 σ0. -/
def sha2s0 (x : Nat) : Nat := rotr 7 x ^^^ rotr 18 x ^^^ (x >>> 3)

/-- SHA-256 σ1. -/
def sha2s1 (x : Nat) : Nat := rotr 17 x ^^^ rotr 19 x ^^^ (x >>> 10)

/-- The SHA-256 round constants. -/
def sha2K : List Nat :=
  [1116352408, 1899447441, 3049323471, 3921009573, 961987163,
   1508970993, 2453635748, 2870763221, 3624381080, 310598401,
   607225278, 1426881987, 1925078388, 2162078206, 2614888103,
   3248222580, 3835390401, 4022224774, 264347078, 604807628,
   770255983, 1249150122, 1555081692, 1996064986, 2554220882,
   2821834349, 2952996808, 3210313671, 3336571891, 3584528711,
   113926993, 338241895, 666307205, 773529912, 1294757372,
   1396182291, 1695183700, 1986661051, 2177026350, 2456956037,
   2730485921, 2820302411, 3259730800, 3345764771, 3516065817,
   3600352804, 4094571909, 275423344, 430227734, 506948616,
   659060556, 883997877, 958139571, 1322822218, 1537002063,
   1747873779, 1955562222, 2024104815, 2227730452, 2361852424,
   2428436474, 2756734187, 3204031479, 3329325298]

/-- SHA-256 hash state (eight 32-bit words). -/
structure Hash8 where
  a0 : Nat
  a1 : Nat
  a2 : Nat
  a3 : Nat
  a4 : Nat
  a5 : Nat
  a6 : Nat
  a7 : Nat
deriving Repr, DecidableEq

/-- The SHA-256 initial hash value. -/
def sha2H0 : Hash8 :=
  ⟨1779033703, 3144134277, 1013904242, 2773480762,
   1359893119, 2600822924, 528734635, 1541459225⟩

/-- Big-endian 8-byte encoding of a natural number. -/
def be64 (n : Nat) : List Nat :=
  [(n >>> 56) &&& 255, (n >>> 48) &&& 255, (n >>> 40) &&& 255,
   (n >>> 32) &&& 255, (n >>> 24) &&& 255, (n >>> 16) &&& 255,
   (n >>> 8) &&& 255, n &&& 255]

/-- SHA-256 padding: a 0x80 byte, zeros to 56 mod 64, then the bit length. -/
def sha2Pad (msg : List Nat) : List Nat :=
  let l := msg.length
  let zeros := (64 + 56 - ((l + 1) % 64)) % 64
  msg ++ [128] ++ List.replicate zeros 0 ++ be64 (l * 8)

/-- Big-endian 32-bit words of a byte list. -/
def toWords : List Nat → List Nat
  | b0 :: b1 :: b2 :: b3 :: rest =>
    ((b0 <<< 24) ||| (b1 <<< 16) ||| (b2 <<< 8) ||| b3) :: toWords rest
  | _ => []

/-- One message-schedule extension step: appends
`σ1(w[n−2]) + w[n−7] + σ0(w[n−15]) + w[n−16]`. -/
def scheduleStep (ws : List Nat) : List Nat :=
  let n := ws.length
  ws ++ [w32 (sha2s1 (ws.getD (n - 2) 0) + ws.getD (n - 7) 0 +
              sha2s0 (ws.getD (n - 15) 0) + ws.getD (n - 16) 0)]

/-- One SHA-256 compression round. -/
def sha2Round (st : Hash8) (k w : Nat) : Hash8 :=
  let t1 := w32 (st.a7 + sha2S1 st.a4 + sha2Ch st.a4 st.a5 st.a6 + k + w)
  let t2 := w32 (sha2S0 st.a0 + sha2Maj st.a0 st.a1 st.a2)
  ⟨w32 (t1 + t2), st.a0, st.a1, st.a2, w32 (st.a3 + t1), st.a4, st.a5, st.a6⟩

/-- Compression of one 16-word block into the running hash. -/
def sha2Block (h : Hash8) (block : List Nat) : Hash8 :=
  let ws := scheduleStep^[48] block
  let st := (sha2K.zip ws).foldl (fun st kw => sha2Round st kw.1 kw.2) h
  ⟨w32 (h.a0 + st.a0), w32 (h.a1 + st.a1), w32 (h.a2 + st.a2),
   w32 (h.a3 + st.a3), w32 (h.a4 + st.a4), w32 (h.a5 + st.a5),
   w32 (h.a6 + st.a6), w32 (h.a7 + st.a7)⟩

/-- Split a byte list into 64-byte chunks (fuel-driven; the fuel is the
list length, which suffices since each step consumes 64 bytes). -/
def chunks64Aux : Nat → List Nat → List (List Nat)
  | 0, _ => []
  | _, [] => []
  | fuel + 1, l => l.take 64 :: chunks64Aux fuel (l.drop 64)

/-- The 64-byte chunks of a byte list. -/
def chunks64 (l : List Nat) : List (List Nat) := chunks64Aux l.length l

/-- The SHA-256 digest of a byte list, as eight 32-bit words. -/
def sha256Words (msg : List Nat) : Hash8 :=
  ((chunks64 (sha2Pad msg)).map toWords).foldl sha2Block sha2H0

/-- Lowercase hexadecimal digit. -/
def hexDigit (n : Nat) : Char :=
  (String.data "0123456789abcdef").getD n '0'

/-- Lowercase hexadecimal rendering of a 32-bit word (8 digits). -/
def wordToHex (w : Nat) : List Char :=
  [hexDigit ((w >>> 28) &&& 15), hexDigit ((w >>> 24) &&& 15),
   hexDigit ((w >>> 20) &&& 15), hexDigit ((w >>> 16) &&& 15),
   hexDigit ((w >>> 12) &&& 15), hexDigit ((w >>> 8) &&& 15),
   hexDigit ((w >>> 4) &&& 15), hexDigit (w &&& 15)]

/-- The SHA-256 digest of a byte list in lowercase hexadecimal
(`crypto.createHash('sha256').update(x).digest('hex')`). -/
def sha256hex (msg : List Nat) : String :=
  let h := sha256Words msg
  String.mk (wordToHex h.a0 ++ wordToHex h.a1 ++ wordToHex h.a2 ++
    wordToHex h.a3 ++ wordToHex h.a4 ++ wordToHex h.a5 ++
    wordToHex h.a6 ++ wordToHex h.a7)

/-- Every SHA-256 hexadecimal digest has 64 characters. -/
theorem sha256hex_length (msg : List Nat) : (sha256hex msg).length = 64 := rfl

/-- Whitespace for JavaScript `String.prototype.trim` (ASCII whitespace,
no-break space and the BOM; the remaining Unicode `Zs` code points are
omitted, which is immaterial for every input considered here). -/
def isJsSpace (c : Char) : Bool :=
  c.toNat = 9 || c.toNat = 10 || c.toNat = 11 || c.toNat = 12 ||
  c.toNat = 13 || c.toNat = 32 || c.toNat = 160 || c.toNat = 65279

/-- JavaScript `s.trim()`: strip leading and trailing whitespace. -/
def jsTrim (s : String) : String :=
  String.mk (((s.data.dropWhile isJsSpace).reverse.dropWhile isJsSpace).reverse)

/-- `PromptCache.generateHash`: the SHA-256 hex digest of
`prompt.trim() + "|" + stylePreset`. -/
def generateHash (prompt stylePreset : String) : String :=
  sha256hex (utf8Bytes (jsTrim prompt ++ "|" ++ stylePreset))

/-- A prompt-cache entry (`CachedPromptResult`). -/
structure CachedPromptResult where
  hash : String
  prompt : String
  stylePreset : String
  jobId : String
  job : Job
  cachedAt : Nat
  hitCount : Nat
deriving Repr, DecidableEq

/-- The `PromptCache` instance's `Map`, as an insertion-ordered association
list (JavaScript `Map` iteration order is insertion order). -/
abbrev PromptCacheState : Type := List (String × CachedPromptResult)

/-- `Map.get` for the prompt cache. -/
def cGet (m : PromptCacheState) (k : String) : Option CachedPromptResult :=
  match m with
  | [] => none
  | (k', v) :: rest => if k' = k then some v else cGet rest k

/-- `Map.has` for the prompt cache. -/
def cHas (m : PromptCacheState) (k : String) : Bool := (cGet m k).isSome

/-- `Map.set` for the prompt cache: replace in place when the key exists,
append otherwise. -/
def cSet (m : PromptCacheState) (k : String) (v : CachedPromptResult) :
    PromptCacheState :=
  match m with
  | [] => [(k, v)]
  | (k', v') :: rest =>
    if k' = k then (k', v) :: rest else (k', v') :: cSet rest k v

/-- `Map.delete` for the prompt cache: remove the entry with the key. -/
def cDelete (m : PromptCacheState) (k : String) : PromptCacheState :=
  match m with
  | [] => []
  | (k', v') :: rest => if k' = k then rest else (k', v') :: cDelete rest k

/-- `PromptCache.CACHE_DURATION_MS` (30 days). -/
def CACHE_DURATION_MS : Nat := 2592000000

/-- `PromptCache.MAX_CACHE_SIZE`. -/
def MAX_CACHE_SIZE : Nat := 1000

/-- `PromptCache.getCachedJob(prompt, stylePreset)` with `now` the
`Date.now()` of the call: miss on an absent hash; on an entry older than 30
days (`now - cachedAt > CACHE_DURATION_MS`, with truncated subtraction
matching the JavaScript comparison) delete the entry and miss; otherwise
increment the entry's hit counter (an in-place object mutation) and return
the cached job. -/
def getCachedJob (cache : PromptCacheState) (prompt stylePreset : String)
    (now : Nat) : Option Job × PromptCacheState :=
  let hash := generateHash prompt stylePreset
  match cGet cache hash with
  | none => (none, cache)
  | some cached =>
    if now - cached.cachedAt > CACHE_DURATION_MS then
      (none, cDelete cache hash)
    else
      (some cached.job,
       cSet cache hash { cached with hitCount := cached.hitCount + 1 })

/-- The eviction scan of `setCachedJob`: `oldestTime` starts at `Date.now()`
and is lowered only by a strictly smaller `cachedAt`, so the result is the
key of the first entry with the strictly smallest `cachedAt` below `t0`,
or `null` when no entry is strictly older than `t0`. -/
def oldestScanStep (acc : Nat × Option String)
    (kv : String × CachedPromptResult) : Nat × Option String :=
  if kv.2.cachedAt < acc.1 then (kv.2.cachedAt, some kv.1) else acc

/-- Result of the eviction scan: the second component of the fold. -/
def findOldestKey (m : PromptCacheState) (t0 : Nat) : Option String :=
  (m.foldl oldestScanStep (t0, (none : Option String))).2

/-- `PromptCache.setCachedJob(prompt, stylePreset, job)` with `now` standing
for both `Date.now()` calls of the body (the `oldestTime` seed and the
stored `cachedAt`): no-op unless `job.status === 'done'` and `job.output` is
present; no-op when the hash is already cached; when the cache already holds
`MAX_CACHE_SIZE` entries, delete the key found by the eviction scan (if
any); then insert the new entry. -/
def setCachedJob (cache : PromptCacheState) (prompt stylePreset : String)
    (job : Job) (now : Nat) : PromptCacheState :=
  if job.status ≠ "done" || job.output.isNone then cache
  else
    let hash := generateHash prompt stylePreset
    if cHas cache hash then cache
    else
      let cache1 :=
        if cache.length ≥ MAX_CACHE_SIZE then
          match findOldestKey cache now with
          | some oldestKey => cDelete cache oldestKey
          | none => cache
        else cache
      cSet cache1 hash
        { hash := hash, prompt := jsTrim prompt, stylePreset := stylePreset,
          jobId := job.id, job := job, cachedAt := now, hitCount := 0 }

theorem cGet_cSet_self (m : PromptCacheState) (k : String)
    (v : CachedPromptResult) : cGet (cSet m k v) k = some v := by
  induction m with
  | nil => simp [cSet, cGet]
  | cons kv rest ih =>
    by_cases h : kv.1 = k
    · simp [cSet, cGet, h]
    · simp [cSet, cGet, h, ih]

theorem cSet_of_get_none (m : PromptCacheState) (k : String)
    (v : CachedPromptResult) (h : cGet m k = none) :
    cSet m k v = m ++ [(k, v)] := by
  induction m with
  | nil => simp [cSet]
  | cons kv rest ih =>
    by_cases hk : kv.1 = k
    · simp [cGet, hk] at h
    · simp [cGet, hk] at h
      simp [cSet, hk, ih h]

theorem cGet_append_none (m1 m2 : PromptCacheState) (k : String)
    (h : cGet m1 k = none) : cGet (m1 ++ m2) k = cGet m2 k := by
  induction m1 with
  | nil => simp
  | cons kv rest ih =>
    by_cases hk : kv.1 = k
    · simp [cGet, hk] at h
    · simp [cGet, hk] at h
      simp [cGet, hk, ih h]

theorem cGet_cDelete_none (m : PromptCacheState) (k k' : String)
    (h : cGet m k = none) : cGet (cDelete m k') k = none := by
  induction m with
  | nil => simp [cDelete, cGet]
  | cons kv rest ih =>
    by_cases hk : kv.1 = k
    · simp [cGet, hk] at h
    · simp [cGet, hk] at h
      by_cases hk' : kv.1 = k'
      · simp [cDelete, hk', h]
      · simp [cDelete, hk', cGet, hk, ih h]

theorem cDelete_append_single (m : PromptCacheState) (k : String)
    (v : CachedPromptResult) (h : cGet m k = none) :
    cDelete (m ++ [(k, v)]) k = m := by
  induction m with
  | nil => rw [List.nil_append]; simp [cDelete]
  | cons kv rest ih =>
    by_cases hk : kv.1 = k
    · simp [cGet, hk] at h
    · simp [cGet, hk] at h
      simp [cDelete, hk, ih h]

/-- The entry `setCachedJob` inserts for a fresh hash. -/
def newCacheEntry (prompt stylePreset : String) (job : Job) (now : Nat) :
    CachedPromptResult :=
  { hash := generateHash prompt stylePreset, prompt := jsTrim prompt,
    stylePreset := stylePreset, jobId := job.id, job := job,
    cachedAt := now, hitCount := 0 }

/-- Insertion shape of `setCachedJob` on a done job with output and a hash
not yet cached: the new entry is appended after a prefix that contains
every key the original cache did not contain. -/
theorem setCachedJob_fresh (cache : PromptCacheState) (p s : String)
    (job : Job) (now : Nat) (hdone : job.status = "done")
    (hout : job.output.isSome)
    (hfresh : cGet cache (generateHash p s) = none) :
    ∃ cache1 : PromptCacheState,
      setCachedJob cache p s job now =
        cache1 ++ [(generateHash p s, newCacheEntry p s job now)] ∧
      ∀ k, cGet cache k = none → cGet cache1 k = none := by
  obtain ⟨o, ho⟩ := Option.isSome_iff_exists.mp hout
  unfold setCachedJob
  simp only [hdone, ho, cHas, hfresh, ne_eq, not_true_eq_false,
    decide_False, Option.isNone_some, Bool.or_self, Bool.false_eq_true,
    if_false, Option.isSome_none, ite_false]
  by_cases hlen : cache.length ≥ MAX_CACHE_SIZE
  · simp only [hlen, ite_true]
    cases hold : findOldestKey cache now with
    | none =>
      exact ⟨cache, cSet_of_get_none cache _ _ hfresh, fun k hk => hk⟩
    | some oldestKey =>
      refine ⟨cDelete cache oldestKey,
        cSet_of_get_none _ _ _ (cGet_cDelete_none cache _ _ hfresh),
        fun k hk => cGet_cDelete_none cache _ _ hk⟩
  · simp only [hlen, ite_false]
    exact ⟨cache, cSet_of_get_none cache _ _ hfresh, fun k hk => hk⟩

/-- C8. For a done job with output and a fresh hash, `setCachedJob(P,S,job)`
followed by `getCachedJob(P,S)` within 30 days returns that job;
`getCachedJob` for a prompt/style pair whose SHA-256 key differs (and is
not otherwise cached) returns no result; and once more than 30 days have
elapsed since caching, `getCachedJob(P,S)` returns no result and the entry
is evicted from the map. -/
theorem promptCache_roundtrip (cache : PromptCacheState) (p s p2 s2 : String)
    (job : Job) (now now2 now3 : Nat)
    (hdone : job.status = "done") (hout : job.output.isSome)
    (hfresh : cGet cache (generateHash p s) = none)
    (hfresh2 : cGet cache (generateHash p2 s2) = none)
    (hdiff : generateHash p2 s2 ≠ generateHash p s)
    (httl : now2 - now ≤ CACHE_DURATION_MS)
    (hexp : CACHE_DURATION_MS < now3 - now) :
    (getCachedJob (setCachedJob cache p s job now) p s now2).fst =
      some job ∧
    (getCachedJob (setCachedJob cache p s job now) p2 s2 now2).fst = none ∧
    (getCachedJob (setCachedJob cache p s job now) p s now3).fst = none ∧
    cGet (getCachedJob (setCachedJob cache p s job now) p s now3).snd
      (generateHash p s) = none := by
  obtain ⟨c1, hc1, hpres⟩ := setCachedJob_fresh cache p s job now hdone hout
    hfresh
  have hc1fresh : cGet c1 (generateHash p s) = none := hpres _ hfresh
  have hget : cGet (c1 ++ [(generateHash p s, newCacheEntry p s job now)])
      (generateHash p s) = some (newCacheEntry p s job now) := by
    rw [cGet_append_none _ _ _ hc1fresh]
    simp [cGet]
  have hnotexp : ¬ now2 - (newCacheEntry p s job now).cachedAt >
      CACHE_DURATION_MS := by
    simp only [newCacheEntry]
    omega
  have hisexp : now3 - (newCacheEntry p s job now).cachedAt >
      CACHE_DURATION_MS := by
    simp only [newCacheEntry]
    omega
  refine ⟨?_, ?_, ?_, ?_⟩
  · rw [hc1]
    unfold getCachedJob
    simp only [hget]
    rw [if_neg hnotexp]
    rfl
  · rw [hc1]
    unfold getCachedJob
    have hmiss : cGet (c1 ++ [(generateHash p s, newCacheEntry p s job now)])
        (generateHash p2 s2) = none := by
      rw [cGet_append_none _ _ _ (hpres _ hfresh2)]
      simp [cGet, hdiff.symm]
    simp [hmiss]
  · rw [hc1]
    unfold getCachedJob
    simp only [hget]
    rw [if_pos hisexp]
  · rw [hc1]
    unfold getCachedJob
    simp only [hget]
    rw [if_pos hisexp]
    show cGet (cDelete (c1 ++ [(generateHash p s, newCacheEntry p s job now)])
      (generateHash p s)) (generateHash p s) = none
    rw [cDelete_append_single _ _ _ hc1fresh]
    exact hc1fresh

/-- Fixture: a completed job for the cache round-trip. -/
def c8Job : Job :=
  { id := "abcdefabcdefabcdefabcdef", status := "done",
    prompt := "Draw a circle", stylePreset := "Classic",
    createdAt := "2026-01-03T00:00:00.000Z",
    updatedAt := "2026-01-03T00:01:00.000Z",
    output := some { code := some "from manim import *",
                     explanation := some "A circle.",
                     videoUrl := some "/videos/abcdefabcdefabcdefabcdef.mp4" },
    progress := some 100 }

set_option maxRecDepth 100000

/-- C8 witness: the round-trip theorem applied to an empty cache, the pair
("Draw a circle", "Classic") against ("Draw a square", "Classic"), caching
at time 0 and reading back at 1000 ms. -/
theorem promptCache_roundtrip_witness :
    (getCachedJob (setCachedJob [] "Draw a circle" "Classic" c8Job 0)
        "Draw a circle" "Classic" 1000).fst = some c8Job := by
  exact (promptCache_roundtrip [] "Draw a circle" "Classic" "Draw a square"
    "Classic" c8Job 0 1000 2592000001 rfl rfl rfl rfl (by decide)
    (by decide) (by decide)).1

/-- Specification of the eviction scan's fold: the tracked time only
decreases, it bounds every scanned `cachedAt` from below, a strict decrease
pinpoints an entry attaining the tracked time, and without a strict
decrease the accumulator is untouched. -/
theorem oldestScan_spec (m : PromptCacheState) :
    ∀ (t : Nat) (k0 : Option String),
      (m.foldl oldestScanStep (t, k0)).1 ≤ t ∧
      (∀ kv ∈ m, (m.foldl oldestScanStep (t, k0)).1 ≤ kv.2.cachedAt) ∧
      ((m.foldl oldestScanStep (t, k0)).1 < t →
        ∃ kv ∈ m, (m.foldl oldestScanStep (t, k0)).2 = some kv.1 ∧
          kv.2.cachedAt = (m.foldl oldestScanStep (t, k0)).1) ∧
      (¬ (m.foldl oldestScanStep (t, k0)).1 < t →
        m.foldl oldestScanStep (t, k0) = (t, k0)) := by
  induction m with
  | nil =>
    intro t k0
    refine ⟨le_refl t, by simp, fun h => absurd h (by simp), fun _ => rfl⟩
  | cons kv m ih =>
    intro t k0
    by_cases hs : kv.2.cachedAt < t
    · have hstep : oldestScanStep (t, k0) kv = (kv.2.cachedAt, some kv.1) :=
        by simp [oldestScanStep, hs]
      obtain ⟨ha, hb, hc, hd⟩ := ih kv.2.cachedAt (some kv.1)
      rw [List.foldl_cons, hstep]
      refine ⟨le_trans ha (le_of_lt hs), ?_, ?_, ?_⟩
      · intro kv' hkv'
        rcases List.mem_cons.mp hkv' with rfl | hmem
        · exact ha
        · exact hb kv' hmem
      · intro _
        by_cases hlt : (m.foldl oldestScanStep (kv.2.cachedAt, some kv.1)).1
            < kv.2.cachedAt
        · obtain ⟨kv', hmem, hk, hca⟩ := hc hlt
          exact ⟨kv', List.mem_cons_of_mem _ hmem, hk, hca⟩
        · have heq := hd hlt
          exact ⟨kv, List.mem_cons_self _ _, by rw [heq], by rw [heq]⟩
      · intro hnl
        exact absurd (lt_of_le_of_lt ha hs) hnl
    · have hstep : oldestScanStep (t, k0) kv = (t, k0) := by
        simp [oldestScanStep, hs]
      obtain ⟨ha, hb, hc, hd⟩ := ih t k0
      rw [List.foldl_cons, hstep]
      refine ⟨ha, ?_, ?_, hd⟩
      · intro kv' hkv'
        rcases List.mem_cons.mp hkv' with rfl | hmem
        · omega
        · exact hb kv' hmem
      · intro hlt
        obtain ⟨kv', hmem, hk, hca⟩ := hc hlt
        exact ⟨kv', List.mem_cons_of_mem _ hmem, hk, hca⟩

/-- When no entry is strictly older than the scan seed, the eviction scan
finds nothing. -/
theorem findOldestKey_none (m : PromptCacheState) (t0 : Nat)
    (h : ∀ kv ∈ m, ¬ kv.2.cachedAt < t0) : findOldestKey m t0 = none := by
  obtain ⟨ha, hb, hc, hd⟩ := oldestScan_spec m t0 none
  unfold findOldestKey
  by_cases hlt : (m.foldl oldestScanStep (t0, none)).1 < t0
  · obtain ⟨kv, hmem, _, hca⟩ := hc hlt
    exact absurd (hca ▸ hlt) (h kv hmem)
  · rw [hd hlt]

/-- A key whose length differs from every stored key is absent. -/
theorem cGet_none_of_length_ne (m : PromptCacheState) (k : String)
    (h : ∀ kv ∈ m, kv.1.length ≠ k.length) : cGet m k = none := by
  induction m with
  | nil => rfl
  | cons kv m ih =>
    have hne : kv.1 ≠ k := by
      intro he
      exact h kv (List.mem_cons_self _ _) (by rw [he])
    simp only [cGet, if_neg hne]
    exact ih fun kv' hkv' => h kv' (List.mem_cons_of_mem _ hkv')

/-- Every `generateHash` digest has 64 characters. -/
theorem generateHash_length (p s : String) :
    (generateHash p s).length = 64 := sha256hex_length _

/-- Shape of `setCachedJob` on a fresh hash when the cache is full but the
eviction scan finds no entry strictly older than `Date.now()`: nothing is
deleted and the new entry is appended to all 1000 existing ones. -/
theorem setCachedJob_no_evict (cache : PromptCacheState) (p s : String)
    (job : Job) (now : Nat) (hdone : job.status = "done")
    (hout : job.output.isSome)
    (hfresh : cGet cache (generateHash p s) = none)
    (hsize : cache.length ≥ MAX_CACHE_SIZE)
    (hold : findOldestKey cache now = none) :
    setCachedJob cache p s job now =
      cache ++ [(generateHash p s, newCacheEntry p s job now)] := by
  obtain ⟨o, ho⟩ := Option.isSome_iff_exists.mp hout
  unfold setCachedJob
  simp only [hdone, ho, cHas, hfresh, ne_eq, not_true_eq_false,
    decide_False, Option.isNone_some, Bool.or_self, Bool.false_eq_true,
    if_false, Option.isSome_none, ite_false, hsize, ite_true, hold]
  exact cSet_of_get_none cache _ _ hfresh

/-- Fixture: the i-th cache key, a string of `i + 65` letters (every key is
longer than a 64-character SHA-256 digest, and distinct lengths make the
keys pairwise distinct). -/
def c9Key (i : Nat) : String := String.mk (List.replicate (i + 65) 'a')

/-- Fixture: a completed job referenced by the pre-populated entries. -/
def c9Job : Job :=
  { id := "0123456789abcdef01234567", status := "done",
    prompt := "Plot a parabola", stylePreset := "Dark",
    createdAt := "2026-01-04T00:00:00.000Z",
    updatedAt := "2026-01-04T00:01:00.000Z",
    output := some { code := some "from manim import *",
                     explanation := none,
                     videoUrl := some "/videos/0123456789abcdef01234567.mp4" },
    progress := some 100 }

/-- Fixture: the i-th pre-populated cache entry, cached at millisecond 0. -/
def c9Entry (i : Nat) : CachedPromptResult :=
  { hash := c9Key i, prompt := "p", stylePreset := "Classic",
    jobId := c9Job.id, job := c9Job, cachedAt := 0, hitCount := 0 }

/-- Fixture: a cache holding 1000 entries that all share `cachedAt = 0`. -/
def tiedCache : PromptCacheState :=
  (List.range 1000).map fun i => (c9Key i, c9Entry i)

theorem c9Key_length (i : Nat) : (c9Key i).length = i + 65 := by
  show (List.replicate (i + 65) 'a').length = i + 65
  simp

/-- C9 counterexample. Inserting a fresh done job into a cache already
holding 1000 entries, all cached at the same `Date.now()` as the insert,
evicts nothing (the scan's `oldestTime` starts at `Date.now()` and only a
strictly smaller `cachedAt` can win), so the cache grows to 1001 entries —
the claimed 1000-entry bound fails. -/
theorem setCachedJob_overflows_on_tied_timestamps :
    tiedCache.length = MAX_CACHE_SIZE ∧
    (setCachedJob tiedCache "Draw a circle" "Classic" c9Job 0).length =
      MAX_CACHE_SIZE + 1 := by
  have hlen : tiedCache.length = MAX_CACHE_SIZE := by
    simp [tiedCache, MAX_CACHE_SIZE]
  have hfresh : cGet tiedCache (generateHash "Draw a circle" "Classic") =
      none := by
    apply cGet_none_of_length_ne
    intro kv hkv
    simp only [tiedCache, List.mem_map, List.mem_range] at hkv
    obtain ⟨i, hi, rfl⟩ := hkv
    rw [c9Key_length, generateHash_length]
    omega
  have hold : findOldestKey tiedCache 0 = none := by
    apply findOldestKey_none
    intro kv hkv
    simp only [tiedCache, List.mem_map, List.mem_range] at hkv
    obtain ⟨i, hi, rfl⟩ := hkv
    simp [c9Entry]
  refine ⟨hlen, ?_⟩
  rw [setCachedJob_no_evict tiedCache "Draw a circle" "Classic" c9Job 0
    rfl rfl hfresh (by rw [hlen]) hold]
  rw [List.length_append, hlen]
  rfl

theorem cGet_eq_none_of_not_mem_keys (m : PromptCacheState) (k : String)
    (h : k ∉ m.map Prod.fst) : cGet m k = none := by
  induction m with
  | nil => rfl
  | cons hd tl ih =>
    simp only [List.map_cons, List.mem_cons, not_or] at h
    have hne : hd.1 ≠ k := fun he => h.1 he.symm
    simp only [cGet, if_neg hne]
    exact ih h.2

theorem mem_cGet_isSome (m : PromptCacheState)
    (kv : String × CachedPromptResult) (h : kv ∈ m) :
    (cGet m kv.1).isSome := by
  induction m with
  | nil => exact absurd h (List.not_mem_nil kv)
  | cons hd tl ih =>
    by_cases hk : hd.1 = kv.1
    · simp [cGet, hk]
    · rcases List.mem_cons.mp h with rfl | hmem
      · exact absurd rfl hk
      · simp only [cGet, if_neg hk]
        exact ih hmem

theorem cGet_cDelete_self_of_nodup (m : PromptCacheState) (k : String)
    (hnd : (m.map Prod.fst).Nodup) : cGet (cDelete m k) k = none := by
  induction m with
  | nil => rfl
  | cons hd tl ih =>
    simp only [List.map_cons, List.nodup_cons] at hnd
    by_cases hk : hd.1 = k
    · simp only [cDelete, if_pos hk]
      exact cGet_eq_none_of_not_mem_keys tl k (hk ▸ hnd.1)
    · simp only [cDelete, if_neg hk, cGet, if_neg hk]
      exact ih hnd.2

theorem cDelete_length_of_isSome (m : PromptCacheState) (k : String)
    (h : (cGet m k).isSome) : (cDelete m k).length + 1 = m.length := by
  induction m with
  | nil => simp [cGet] at h
  | cons hd tl ih =>
    by_cases hk : hd.1 = k
    · simp [cDelete, hk]
    · simp only [cGet, if_neg hk] at h
      simp only [cDelete, if_neg hk, List.length_cons]
      rw [← ih h]

/-- Shape of `setCachedJob` on a fresh hash when the cache is full and the
eviction scan returns a key: that key is deleted, then the new entry is
appended. -/
theorem setCachedJob_evict (cache : PromptCacheState) (p s : String)
    (job : Job) (now : Nat) (hdone : job.status = "done")
    (hout : job.output.isSome)
    (hfresh : cGet cache (generateHash p s) = none)
    (hsize : cache.length ≥ MAX_CACHE_SIZE) (k : String)
    (hold : findOldestKey cache now = some k) :
    setCachedJob cache p s job now =
      cDelete cache k ++ [(generateHash p s, newCacheEntry p s job now)] := by
  obtain ⟨o, ho⟩ := Option.isSome_iff_exists.mp hout
  unfold setCachedJob
  simp only [hdone, ho, cHas, hfresh, ne_eq, not_true_eq_false,
    decide_False, Option.isNone_some, Bool.or_self, Bool.false_eq_true,
    if_false, Option.isSome_none, ite_false, hsize, ite_true, hold]
  exact cSet_of_get_none _ _ _ (cGet_cDelete_none cache _ _ hfresh)

/-- C9 (amended). When `setCachedJob` inserts a fresh done job while the
cache already holds 1000 entries with distinct keys and at least one entry
was cached strictly earlier than the current time, the eviction scan
returns the key of an entry with the minimal `cachedAt`; that entry is
deleted, the new entry is inserted, and the cache again holds exactly 1000
entries. (When every stored entry's `cachedAt` equals the insertion time,
nothing is evicted and the cache grows to 1001 — the counterexample.) -/
theorem setCachedJob_evicts_oldest_when_strictly_older
    (cache : PromptCacheState) (p s : String) (job : Job) (now : Nat)
    (hdone : job.status = "done") (hout : job.output.isSome)
    (hsize : cache.length = MAX_CACHE_SIZE)
    (hfresh : cGet cache (generateHash p s) = none)
    (hnodup : (cache.map Prod.fst).Nodup)
    (holder : ∃ kv ∈ cache, kv.2.cachedAt < now) :
    ∃ k kv, findOldestKey cache now = some k ∧ kv ∈ cache ∧ kv.1 = k ∧
      (∀ kv' ∈ cache, kv.2.cachedAt ≤ kv'.2.cachedAt) ∧
      setCachedJob cache p s job now =
        cDelete cache k ++ [(generateHash p s, newCacheEntry p s job now)] ∧
      (setCachedJob cache p s job now).length = MAX_CACHE_SIZE ∧
      cGet (setCachedJob cache p s job now) k = none ∧
      cGet (setCachedJob cache p s job now) (generateHash p s) =
        some (newCacheEntry p s job now) := by
  obtain ⟨ha, hb, hc, hd⟩ := oldestScan_spec cache now none
  obtain ⟨kv0, hmem0, hlt0⟩ := holder
  have hflt : (cache.foldl oldestScanStep (now, none)).1 < now :=
    lt_of_le_of_lt (hb kv0 hmem0) hlt0
  obtain ⟨kv, hmem, hk2, hca⟩ := hc hflt
  have hold : findOldestKey cache now = some kv.1 := hk2
  have hkne : kv.1 ≠ generateHash p s := by
    intro he
    have := mem_cGet_isSome cache kv hmem
    rw [he, hfresh] at this
    exact absurd this (by simp)
  have heq := setCachedJob_evict cache p s job now hdone hout hfresh
    (le_of_eq hsize.symm) kv.1 hold
  have hdel : cGet (cDelete cache kv.1) kv.1 = none :=
    cGet_cDelete_self_of_nodup cache kv.1 hnodup
  refine ⟨kv.1, kv, hold, hmem, rfl, ?_, heq, ?_, ?_, ?_⟩
  · intro kv' hkv'
    rw [hca]
    exact hb kv' hkv'
  · rw [heq, List.length_append, List.length_singleton,
      cDelete_length_of_isSome cache kv.1 (mem_cGet_isSome cache kv hmem),
      hsize]
  · rw [heq, cGet_append_none _ _ _ hdel]
    simp [cGet, Ne.symm hkne]
  · rw [heq, cGet_append_none _ _ _ (cGet_cDelete_none cache _ _ hfresh)]
    simp [cGet]

/-- Fixture: a full cache whose i-th entry was cached at millisecond i
(entry 0 is strictly oldest). -/
def c9wCache : PromptCacheState :=
  (List.range 1000).map fun i => (c9Key i, { c9Entry i with cachedAt := i })

/-- C9 witness: the amended theorem applied to the graded-age cache and an
insert at millisecond 1000000, projected to the size-bound conjunct. -/
theorem setCachedJob_evicts_oldest_witness :
    (setCachedJob c9wCache "Draw an ellipse" "Dark" c9Job 1000000).length =
      MAX_CACHE_SIZE := by
  have hfresh : cGet c9wCache (generateHash "Draw an ellipse" "Dark") =
      none := by
    apply cGet_none_of_length_ne
    intro kv hkv
    simp only [c9wCache, List.mem_map, List.mem_range] at hkv
    obtain ⟨i, hi, rfl⟩ := hkv
    rw [c9Key_length, generateHash_length]
    omega
  have hnodup : (c9wCache.map Prod.fst).Nodup := by
    have hinj : Function.Injective c9Key := by
      intro i j h
      have := congrArg String.length h
      rw [c9Key_length, c9Key_length] at this
      omega
    have : c9wCache.map Prod.fst = (List.range 1000).map c9Key := by
      simp [c9wCache]
    rw [this]
    exact (List.nodup_range 1000).map hinj
  obtain ⟨k, kv, _, _, _, _, _, hlen, _, _⟩ :=
    setCachedJob_evicts_oldest_when_strictly_older c9wCache
      "Draw an ellipse" "Dark" c9Job 1000000 rfl rfl
      (by simp [c9wCache, MAX_CACHE_SIZE]) hfresh hnodup
      ⟨(c9Key 0, { c9Entry 0 with cachedAt := 0 }),
        List.mem_map.mpr ⟨0, List.mem_range.mpr (by norm_num), rfl⟩,
        by norm_num⟩
  exact hlen

/-- JavaScript regex `\w`: ASCII letters, digits, underscore. -/
def isWordChar (c : Char) : Bool := c.isAlphanum || c = '_'

/-- JavaScript regex `\s` (ASCII part: space, tab, line feed, vertical tab,
form feed, carriage return; the Unicode space code points never occur in
the inputs considered here). -/
def isSpaceChar (c : Char) : Bool :=
  c = ' ' || c = '\t' || c = '\n' || c = '\r' || c.toNat = 11 || c.toNat = 12

/-- Match a literal string at the head of the input, returning the rest. -/
def eatLit : List Char → List Char → Option (List Char)
  | [], rest => some rest
  | _ :: _, [] => none
  | c :: cs, d :: ds => if d = c then eatLit cs ds else none

/-- Greedy `\s*`. -/
def eatWsStar (l : List Char) : List Char := l.dropWhile isSpaceChar

/-- Greedy `\s+` (at least one whitespace character; greediness is faithful
because every following token in the patterns used here starts with a
non-whitespace character). -/
def eatWs1 : List Char → Option (List Char)
  | [] => none
  | c :: cs => if isSpaceChar c then some (eatWsStar cs) else none

/-- Greedy capturing `(\w+)` (faithful for the same reason: the following
token is never a word character). -/
def eatWord1 (l : List Char) : Option (List Char × List Char) :=
  match l with
  | [] => none
  | c :: _ =>
    if isWordChar c then some (l.takeWhile isWordChar, l.dropWhile isWordChar)
    else none

/-- Does the first list occur at the head of the second? -/
def listHasPrefixAt : List Char → List Char → Bool
  | [], _ => true
  | _ :: _, [] => false
  | c :: cs, d :: ds => d = c && listHasPrefixAt cs ds

/-- JavaScript `string.includes(needle)` over char lists. -/
def containsSub (needle : List Char) : List Char → Bool
  | [] => listHasPrefixAt needle []
  | c :: cs => listHasPrefixAt needle (c :: cs) || containsSub needle cs

/-- JavaScript `a.includes(b)` on strings. -/
def strIncludes (hay needle : String) : Bool := containsSub needle.data hay.data

/-- Attempt the pattern `class\s+(\w+)\s*\(\s*Scene\s*\)` (with an optional
trailing `\s*:` for the validator's variant) at the head of the input;
returns the captured class name and the input remaining after the match. -/
def matchClassSceneAt (withColon : Bool) (l : List Char) :
    Option (List Char × List Char) := do
  let r1 ← eatLit "class".data l
  let r2 ← eatWs1 r1
  let (name, r3) ← eatWord1 r2
  let r4 := eatWsStar r3
  let r5 ← eatLit "(".data r4
  let r6 := eatWsStar r5
  let r7 ← eatLit "Scene".data r6
  let r8 := eatWsStar r7
  let r9 ← eatLit ")".data r8
  if withColon then
    let r10 := eatWsStar r9
    let r11 ← eatLit ":".data r10
    pure (name, r11)
  else
    pure (name, r9)

/-- First match of the Scene-class pattern, scanning left to right
(JavaScript `String.prototype.match` without the global flag). -/
def findFirstClassScene (withColon : Bool) : List Char → Option String
  | [] =>
    match matchClassSceneAt withColon [] with
    | some (name, _) => some (String.mk name)
    | none => none
  | c :: cs =>
    match matchClassSceneAt withColon (c :: cs) with
    | some (name, _) => some (String.mk name)
    | none => findFirstClassScene withColon cs

/-- All matches of the Scene-class pattern, non-overlapping, scanning left
to right (JavaScript `matchAll` with the global flag); fuel-driven, with
the input length as fuel (each step consumes at least one character). -/
def scanClassScenesAux (withColon : Bool) : Nat → List Char → List String
  | 0, _ => []
  | _ + 1, [] => []
  | fuel + 1, c :: cs =>
    match matchClassSceneAt withColon (c :: cs) with
    | some (name, rest) =>
      String.mk name :: scanClassScenesAux withColon fuel rest
    | none => scanClassScenesAux withColon fuel cs

/-- Captured class names of all Scene-class matches in a string. -/
def scanClassScenes (withColon : Bool) (s : String) : List String :=
  scanClassScenesAux withColon s.data.length s.data

/-- `ManimRendererService.extractSceneName`: first capture of
`class\s+(\w+)\s*\(\s*Scene\s*\)`. -/
def extractSceneName (code : String) : Option String :=
  findFirstClassScene false code.data

/-- Abstract filesystem state for the renderer: existing directories and
files (with contents), in creation order. -/
structure SandboxFS where
  dirs : List String
  files : List (String × String)
deriving Repr, DecidableEq

/-- Does a directory exist? -/
def dirExists (fs : SandboxFS) (p : String) : Bool := fs.dirs.contains p

/-- Is a path equal to or inside a directory? -/
def isUnder (dir path : String) : Bool :=
  path = dir || listHasPrefixAt (dir ++ "/").data path.data

/-- `fs.rmSync(dir, { recursive: true, force: true })`: remove the
directory and everything under it. -/
def removeTree (fs : SandboxFS) (dir : String) : SandboxFS :=
  { dirs := fs.dirs.filter fun d => !isUnder dir d
    files := fs.files.filter fun f => !isUnder dir f.1 }

/-- `mkdirSync(p, { recursive: true })` guarded by `existsSync`. -/
def ensureDir (fs : SandboxFS) (p : String) : SandboxFS :=
  if dirExists fs p then fs else { fs with dirs := fs.dirs ++ [p] }

/-- Write (or overwrite) a file. -/
def writeFile (fs : SandboxFS) (p content : String) : SandboxFS :=
  { fs with files := (fs.files.filter fun f => f.1 ≠ p) ++ [(p, content)] }

/-- Default renderer configuration (`TEMP_DIR` default). -/
def rendererTempDir : String := "/tmp/mathmotion"

/-- Default renderer timeout (`RENDER_TIMEOUT_MS` default), milliseconds. -/
def rendererTimeoutMs : Nat := 60000

/-- The per-job temporary directory:
`path.join(tempBaseDir, 'mathmotion-' + jobId)`. -/
def jobTempDir (jobId : String) : String :=
  rendererTempDir ++ "/mathmotion-" ++ jobId

/-- Outcome of the `docker run` child process, abstracting the external
container: normal exit 0 with output and the relative paths (under
`media/videos`, in directory-walk order) of the files it produced, a
non-zero exit, a spawn failure, or the renderer's own timeout kill. -/
inductive DockerOutcome where
  | success (stdout stderr : String) (produced : List String)
  | exitNonZero (code : Nat) (stderr : String)
  | spawnError (msg : String)
  | timedOut
deriving Repr, DecidableEq

/-- Error object of a failed render. -/
structure RenderError where
  rtype : String
  message : String
  details : String
deriving Repr, DecidableEq

/-- `ManimRenderResult`. -/
structure RenderResult where
  success : Bool
  videoUrl : Option String
  logs : Option String
  error : Option RenderError
deriving Repr, DecidableEq

/-- The renderer's catch-block error categorization, keyed on the thrown
message text. -/
def categorizeRenderError (msg : String) : RenderError :=
  if strIncludes msg "timeout" then
    { rtype := "timeout", message := "Rendering took too long and was cancelled",
      details := "Execution exceeded " ++ toString (rendererTimeoutMs / 1000) ++
        "-second timeout limit" }
  else if strIncludes msg "docker" then
    { rtype := "docker_error", message := "Docker execution failed",
      details := msg }
  else if strIncludes msg "ENOENT" || strIncludes msg "no such file" then
    { rtype := "file_error", message := "File operation failed",
      details := msg }
  else
    { rtype := "runtime_error", message := "Rendering failed with an error",
      details := msg }

/-- The message of the rejection thrown by `executeDocker` for each failing
outcome. -/
def dockerRejectMessage : DockerOutcome → Option String
  | DockerOutcome.success _ _ _ => none
  | DockerOutcome.exitNonZero code stderr =>
    some ("docker: Process exited with code " ++ toString code ++ "\n" ++
      stderr)
  | DockerOutcome.spawnError msg =>
    some ("docker: Failed to spawn process: " ++ msg)
  | DockerOutcome.timedOut =>
    some ("timeout: Docker execution exceeded " ++
      toString (rendererTimeoutMs / 1000) ++ " seconds")

/-- `findRenderedVideo`: if the media directory exists, the first file under
it (in directory-walk order, which is the order the files were produced)
whose name ends in `.mp4`. -/
def findRenderedVideo (fs : SandboxFS) (tempDir : String) : Option String :=
  let mediaDir := tempDir ++ "/media/videos"
  if !dirExists fs mediaDir then none
  else
    ((fs.files.filter fun f => isUnder mediaDir f.1).find? fun f =>
      listHasPrefixAt ".mp4".data.reverse f.1.data.reverse).map (·.1)

/-- `copyVideoToPublic`: copy the found file to `public/videos/{jobId}.mp4`
and return the relative URL. -/
def copyVideoToPublic (fs : SandboxFS) (jobId : String) : String × SandboxFS :=
  let fs1 := ensureDir fs "public/videos"
  let fs2 := writeFile fs1 ("public/videos/" ++ jobId ++ ".mp4") "video"
  ("/videos/" ++ jobId ++ ".mp4", fs2)

/-- `ManimRendererService.renderCode({jobId, code})`, parameterized by the
container outcome. Mirrors the source's control flow: create the temp
directory, write `scene.py`, extract the Scene class name (early `return`
on failure, before any cleanup), run the container (a rejection lands in
the catch block, which cleans up and categorizes), search for the produced
video (early `return` on absence, again without cleanup), copy it to the
public directory, clean up, and return the URL. -/
def renderCode (fs : SandboxFS) (jobId code : String)
    (docker : DockerOutcome) : RenderResult × SandboxFS :=
  let tempDir := jobTempDir jobId
  let fs1 := ensureDir (ensureDir fs rendererTempDir) tempDir
  let fs2 := writeFile fs1 (tempDir ++ "/scene.py") code
  match extractSceneName code with
  | none =>
    let err : RenderError :=
      { rtype := "runtime_error"
        message := "Could not find Scene class in code"
        details := "Scene class name extraction failed" }
    ({ success := false, videoUrl := none, logs := none,
       error := some err }, fs2)
  | some _ =>
    match docker with
    | DockerOutcome.success stdout stderr produced =>
      let fs3 :=
        if produced.isEmpty then fs2
        else
          let fsm := ensureDir fs2 (tempDir ++ "/media/videos")
          produced.foldl
            (fun acc rel =>
              writeFile acc (tempDir ++ "/media/videos/" ++ rel) "video")
            fsm
      match findRenderedVideo fs3 tempDir with
      | none =>
        let err : RenderError :=
          { rtype := "runtime_error"
            message := "Video file not found after rendering"
            details := "Manim execution completed but no MP4 file was produced" }
        ({ success := false, videoUrl := none,
           logs := some (stdout ++ "\n" ++ stderr),
           error := some err }, fs3)
      | some _ =>
        let (url, fs4) := copyVideoToPublic fs3 jobId
        let fs5 := removeTree fs4 tempDir
        ({ success := true, videoUrl := some url, logs := some stdout,
           error := none }, fs5)
    | outcome =>
      match dockerRejectMessage outcome with
      | some msg =>
        let fs3 := removeTree fs2 tempDir
        ({ success := false, videoUrl := none, logs := none,
           error := some (categorizeRenderError msg) }, fs3)
      | none =>
        ({ success := false, videoUrl := none, logs := none,
           error := some (categorizeRenderError "") }, fs2)

/-- Fixture: validated-looking code with one Scene class. -/
def c5Code : String :=
  "from manim import *\n\nclass Demo(Scene):\n    def construct(self):\n        self.play(Rotate(Square(), run_time=2))\n"

/-- C5: evaluation of `renderCode` at the failing inputs. On the
scene-class-name extraction failure path and on the video-file-not-found
path the function returns without running its cleanup step, so the per-job
temporary directory still exists after the call — contradicting the claim
that it is always deleted. (On the success path and on the thrown-error
path the directory is deleted, as the last two conjuncts show.) -/
theorem renderCode_leaks_tempdir_on_failure_paths :
    ((renderCode ⟨[], []⟩ "aaaaaaaaaaaaaaaaaaaaaaaa" "x = 1"
        (DockerOutcome.success "" "" [])).fst.error.map (·.details) =
      some "Scene class name extraction failed" ∧
     dirExists (renderCode ⟨[], []⟩ "aaaaaaaaaaaaaaaaaaaaaaaa" "x = 1"
        (DockerOutcome.success "" "" [])).snd
       (jobTempDir "aaaaaaaaaaaaaaaaaaaaaaaa") = true) ∧
    ((renderCode ⟨[], []⟩ "aaaaaaaaaaaaaaaaaaaaaaaa" c5Code
        (DockerOutcome.success "out" "err" [])).fst.error.map (·.message) =
      some "Video file not found after rendering" ∧
     dirExists (renderCode ⟨[], []⟩ "aaaaaaaaaaaaaaaaaaaaaaaa" c5Code
        (DockerOutcome.success "out" "err" [])).snd
       (jobTempDir "aaaaaaaaaaaaaaaaaaaaaaaa") = true) ∧
    ((renderCode ⟨[], []⟩ "aaaaaaaaaaaaaaaaaaaaaaaa" c5Code
        (DockerOutcome.success "out" "err" ["480p15/Demo.mp4"])).fst.success
      = true ∧
     dirExists (renderCode ⟨[], []⟩ "aaaaaaaaaaaaaaaaaaaaaaaa" c5Code
        (DockerOutcome.success "out" "err" ["480p15/Demo.mp4"])).snd
       (jobTempDir "aaaaaaaaaaaaaaaaaaaaaaaa") = false) ∧
    ((renderCode ⟨[], []⟩ "aaaaaaaaaaaaaaaaaaaaaaaa" c5Code
        (DockerOutcome.exitNonZero 1 "boom")).fst.error.map (·.rtype) =
      some "docker_error" ∧
     dirExists (renderCode ⟨[], []⟩ "aaaaaaaaaaaaaaaaaaaaaaaa" c5Code
        (DockerOutcome.exitNonZero 1 "boom")).snd
       (jobTempDir "aaaaaaaaaaaaaaaaaaaaaaaa") = false) := by
  refine ⟨⟨?_, ?_⟩, ⟨?_, ?_⟩, ⟨?_, ?_⟩, ⟨?_, ?_⟩⟩ <;> decide

/-- Search an anchored matcher at every position of the input (JavaScript
`regex.test` for an unanchored pattern). -/
def searchPat (try_ : List Char → Option (List Char)) : List Char → Bool
  | [] => (try_ []).isSome
  | c :: cs => (try_ (c :: cs)).isSome || searchPat try_ cs

/-- Search an anchored matcher requiring a word boundary before the match
(`\b` before a pattern starting with a word character): the previous
character, when there is one, must not be a word character. -/
def searchPatBoundary (try_ : List Char → Option (List Char)) :
    Option Char → List Char → Bool
  | prev, [] =>
    (match prev with | some p => !isWordChar p | none => true) &&
      (try_ []).isSome
  | prev, c :: cs =>
    ((match prev with | some p => !isWordChar p | none => true) &&
      (try_ (c :: cs)).isSome) || searchPatBoundary try_ (some c) cs

/-- Rest of the input after the first occurrence of a literal, `none` when
it does not occur. -/
def afterFirst (needle : List Char) : List Char → Option (List Char)
  | [] => if listHasPrefixAt needle [] then some [] else none
  | c :: cs =>
    if listHasPrefixAt needle (c :: cs) then some ((c :: cs).drop needle.length)
    else afterFirst needle cs

/-- A trailing `\b`: the next character, when there is one, must not be a
word character. -/
def atWordBoundary : List Char → Bool
  | [] => true
  | c :: _ => !isWordChar c

/-- Matcher for `from\s+manim\s+import\s+\*`. -/
def tryFromManimStar (l : List Char) : Option (List Char) := do
  let r ← eatLit "from".data l
  let r ← eatWs1 r
  let r ← eatLit "manim".data r
  let r ← eatWs1 r
  let r ← eatLit "import".data r
  let r ← eatWs1 r
  eatLit "*".data r

/-- Matcher for `def\s+construct\s*\(\s*self\s*\)\s*:`. -/
def tryConstruct (l : List Char) : Option (List Char) := do
  let r ← eatLit "def".data l
  let r ← eatWs1 r
  let r ← eatLit "construct".data r
  let r ← eatLit "(".data (eatWsStar r)
  let r ← eatLit "self".data (eatWsStar r)
  let r ← eatLit ")".data (eatWsStar r)
  eatLit ":".data (eatWsStar r)

/-- Matcher for `import\s+MOD` with an optional trailing `\b`. -/
def tryImportMod (mod : String) (wb : Bool) (l : List Char) :
    Option (List Char) := do
  let r ← eatLit "import".data l
  let r ← eatWs1 r
  let r ← eatLit mod.data r
  if wb then
    if atWordBoundary r then pure r else none
  else pure r

/-- Matcher for `from\s+MOD\s+import`. -/
def tryFromModImport (mod : String) (l : List Char) : Option (List Char) := do
  let r ← eatLit "from".data l
  let r ← eatWs1 r
  let r ← eatLit mod.data r
  let r ← eatWs1 r
  eatLit "import".data r

/-- Matcher for `NAME\s*\(` (the leading `\b` is handled by the caller). -/
def tryCallPat (name : String) (l : List Char) : Option (List Char) := do
  let r ← eatLit name.data l
  eatLit "(".data (eatWsStar r)

/-- Matcher for `NAME\b` (the leading `\b` is handled by the caller). -/
def tryWordPat (name : String) (l : List Char) : Option (List Char) := do
  let r ← eatLit name.data l
  if atWordBoundary r then pure r else none

/-- Character class `[\w.]` of the import extraction's module part. -/
def isWordDot (c : Char) : Bool := isWordChar c || c = '.'

/-- Character class `[\w.,\s*]` of the import extraction's tail (note that
it contains `\s`, so an extracted statement can span lines). -/
def isImportTailChar (c : Char) : Bool :=
  isWordChar c || c = '.' || c = ',' || isSpaceChar c || c = '*'

/-- Matcher for `(?:from\s+[\w.]+\s+)?import\s+[\w.,\s*]+` at the head of
the input, returning the matched text and the rest. `\s+[\w.,\s*]+` is
matched as one whitespace character followed by a greedy run of the tail
class, which yields the same overall match because the tail class contains
`\s`. -/
def importStmtAt (l : List Char) : Option (List Char × List Char) :=
  let tail_ : List Char → Option (List Char) := fun r => do
    let r ← eatLit "import".data r
    match r with
    | c :: cs =>
      if isSpaceChar c then
        -- `\s+[\w.,\s*]+` equals `\s[\w.,\s*]+` because the tail class
        -- contains `\s`; at least one tail character is required.
        if (cs.takeWhile isImportTailChar).isEmpty then none
        else pure (cs.dropWhile isImportTailChar)
      else none
    | [] => none
  let withFrom : Option (List Char) := do
    let r ← eatLit "from".data l
    let r ← eatWs1 r
    let (modPart, r) ← (match r with
      | c :: _ =>
        if isWordDot c then
          some (r.takeWhile isWordDot, r.dropWhile isWordDot)
        else none
      | [] => none)
    let _ := modPart
    let r ← eatWs1 r
    tail_ r
  match withFrom with
  | some rest => some (l.take (l.length - rest.length), rest)
  | none =>
    match tail_ l with
    | some rest => some (l.take (l.length - rest.length), rest)
    | none => none

/-- Import-statement extraction
(`/^(?:from\s+[\w.]+\s+)?import\s+[\w.,\s*]+/gm`): scan line starts from
left to right, continuing after each match (whose own trailing newline, if
any, re-establishes a line start). Fuel-driven with the input length. -/
def extractImportsAux : Nat → Bool → List Char → List (List Char)
  | 0, _, _ => []
  | _ + 1, _, [] => []
  | fuel + 1, atLS, c :: cs =>
    if atLS then
      match importStmtAt (c :: cs) with
      | some (stmt, rest) =>
        stmt :: extractImportsAux fuel
          (match stmt.reverse with | '\n' :: _ => true | _ => false) rest
      | none => extractImportsAux fuel (c = '\n') cs
    else extractImportsAux fuel (c = '\n') cs

/-- All import statements of the code. -/
def extractImports (code : String) : List (List Char) :=
  extractImportsAux code.data.length true code.data

/-- Run an anchored matcher at the line starts of the input (a `^`-anchored
pattern under the `m` flag). -/
def matchAtLineStarts (try_ : List Char → Option (List Char)) :
    List Char → Bool
  | [] => (try_ []).isSome
  | l@(c :: cs) =>
    (try_ l).isSome ||
      (match c, cs with
       | '\n', rest => matchAtLineStarts try_ rest
       | _, rest => matchAtLineStartsAfter try_ rest)
where
  /-- Continue scanning for the next line start. -/
  matchAtLineStartsAfter (try_ : List Char → Option (List Char)) :
      List Char → Bool
    | [] => false
    | '\n' :: rest => matchAtLineStarts try_ rest
    | _ :: rest => matchAtLineStartsAfter try_ rest

/-- Matcher for `^import\s+manim` (per line). -/
def tryImportManim (l : List Char) : Option (List Char) := do
  let r ← eatLit "import".data l
  let r ← eatWs1 r
  eatLit "manim".data r

/-- Matcher for `^from\s+manim\.\w+\s+import` (per line). -/
def tryFromManimSub (l : List Char) : Option (List Char) := do
  let r ← eatLit "from".data l
  let r ← eatWs1 r
  let r ← eatLit "manim.".data r
  let (_, r) ← eatWord1 r
  let r ← eatWs1 r
  eatLit "import".data r

/-- The `forbiddenImports` table of `validateImports`: matcher and message
for each entry, in source order. -/
def forbiddenImports : List ((List Char → Bool) × String) :=
  [(searchPat (tryImportMod "os" true), "os module (file system access)"),
   (searchPat (tryFromModImport "os"), "os module (file system access)"),
   (searchPat (tryImportMod "sys" true), "sys module (system access)"),
   (searchPat (tryFromModImport "sys"), "sys module (system access)"),
   (searchPat (tryImportMod "subprocess" true),
    "subprocess module (command execution)"),
   (searchPat (tryFromModImport "subprocess"),
    "subprocess module (command execution)"),
   (searchPat (tryImportMod "socket" true), "socket module (network access)"),
   (searchPat (tryFromModImport "socket"), "socket module (network access)"),
   (searchPat (tryImportMod "requests" true),
    "requests module (network access)"),
   (searchPat (tryImportMod "urllib" false), "urllib module (network access)"),
   (searchPat (tryImportMod "pickle" true),
    "pickle module (arbitrary code execution)"),
   (searchPat (tryImportMod "marshal" true),
    "marshal module (arbitrary code execution)"),
   (searchPat (tryImportMod "ctypes" true),
    "ctypes module (low-level system access)"),
   (searchPat (tryImportMod "__builtin" false),
    "__builtin module (builtin overrides)"),
   (searchPat (tryImportMod "builtins" true),
    "builtins module (builtin overrides)")]

/-- `validateImports`: forbidden-import denylist first, then every
extracted import statement must match an allowed pattern or mention
`manim` (case-insensitively). -/
def validateImports (code : String) : Option String :=
  match forbiddenImports.find? fun fi => fi.1 code.data with
  | some fi =>
    some ("Forbidden import detected: " ++ fi.2 ++
      ". Only Manim imports are allowed.")
  | none =>
    let imports := extractImports code
    match imports.find? fun stmt =>
      !(matchAtLineStarts tryFromManimStar stmt ||
        matchAtLineStarts tryImportManim stmt ||
        matchAtLineStarts tryFromManimSub stmt ||
        containsSub "manim".data (stmt.map Char.toLower)) with
    | some stmt =>
      some ("Unauthorized import detected: \"" ++ String.mk stmt ++
        "\". Only Manim library imports are permitted.")
    | none => none

/-- The `forbiddenCalls` table of `validateForbiddenCalls`: matcher and
message for each entry, in source order (`\bNAME\s*\(` entries, then the
`\b__dict__\b`-style entries). -/
def forbiddenCalls : List ((List Char → Bool) × String) :=
  [(searchPatBoundary (tryCallPat "eval") none,
    "eval() - arbitrary code execution"),
   (searchPatBoundary (tryCallPat "exec") none,
    "exec() - arbitrary code execution"),
   (searchPatBoundary (tryCallPat "compile") none,
    "compile() - dynamic code compilation"),
   (searchPatBoundary (tryCallPat "__import__") none,
    "__import__() - dynamic imports"),
   (searchPatBoundary (tryCallPat "open") none,
    "open() - file system access"),
   (searchPatBoundary (tryCallPat "file") none,
    "file() - file system access"),
   (searchPatBoundary (tryCallPat "input") none,
    "input() - user input not supported"),
   (searchPatBoundary (tryCallPat "raw_input") none,
    "raw_input() - user input not supported"),
   (searchPatBoundary (tryCallPat "globals") none,
    "globals() - namespace manipulation"),
   (searchPatBoundary (tryCallPat "locals") none,
    "locals() - namespace manipulation"),
   (searchPatBoundary (tryCallPat "vars") none,
    "vars() - namespace manipulation"),
   (searchPatBoundary (tryCallPat "dir") none,
    "dir() - introspection not needed"),
   (searchPatBoundary (tryCallPat "getattr") none,
    "getattr() - dynamic attribute access"),
   (searchPatBoundary (tryCallPat "setattr") none,
    "setattr() - dynamic attribute modification"),
   (searchPatBoundary (tryCallPat "delattr") none,
    "delattr() - dynamic attribute deletion"),
   (searchPatBoundary (tryWordPat "__dict__") none,
    "__dict__ - object introspection"),
   (searchPatBoundary (tryWordPat "__class__") none,
    "__class__ - class manipulation"),
   (searchPatBoundary (tryWordPat "__bases__") none,
    "__bases__ - inheritance manipulation")]

/-- `validateForbiddenCalls`. -/
def validateForbiddenCalls (code : String) : Option String :=
  match forbiddenCalls.find? fun fc => fc.1 code.data with
  | some fc =>
    some ("Forbidden function call detected: " ++ fc.2 ++
      ". This operation is not allowed in animation code.")
  | none => none

/-- Matcher for `(os|sys|subprocess)\.\w+` (alternatives in source order;
no word boundary on either side). -/
def tryRestrictedModCall (l : List Char) : Option (List Char) :=
  let after : Option (List Char) :=
    match eatLit "os.".data l with
    | some r => some r
    | none =>
      match eatLit "sys.".data l with
      | some r => some r
      | none => eatLit "subprocess.".data l
  match after with
  | some (c :: rest) => if isWordChar c then some rest else none
  | _ => none

/-- Matcher for `with\s+open\s*\(` (no leading boundary). -/
def tryWithOpen (l : List Char) : Option (List Char) := do
  let r ← eatLit "with".data l
  let r ← eatWs1 r
  let r ← eatLit "open".data r
  eatLit "(".data (eatWsStar r)

/-- Matcher for `with\s+file\s*\(` (a leading `\b` is applied by the
caller). -/
def tryWithFile (l : List Char) : Option (List Char) := do
  let r ← eatLit "with".data l
  let r ← eatWs1 r
  let r ← eatLit "file".data r
  eatLit "(".data (eatWsStar r)

/-- Lines of the code as split by the characters JavaScript `.` does not
match (line feed and carriage return, the only line terminators occurring
here). -/
def dotLines (l : List Char) : List (List Char) :=
  (l.splitOnP fun c => c = '\n' || c = '\r')

/-- One line matches `lambda.*(?:eval|exec|__import__|compile)`: a `lambda`
occurrence with one of the four targets later in the same line (taking the
first occurrence is complete for existence). -/
def lineLambdaDanger (line : List Char) : Bool :=
  match afterFirst "lambda".data line with
  | none => false
  | some rest =>
    containsSub "eval".data rest || containsSub "exec".data rest ||
      containsSub "__import__".data rest || containsSub "compile".data rest

/-- One line matches `\[.*for.*in.*\].*(?:eval|exec)`: the five components
in order within the line (chained first occurrences are complete for
existence). -/
def lineComprehensionDanger (line : List Char) : Bool :=
  match afterFirst "[".data line with
  | none => false
  | some r1 =>
    match afterFirst "for".data r1 with
    | none => false
    | some r2 =>
      match afterFirst "in".data r2 with
      | none => false
      | some r3 =>
        match afterFirst "]".data r3 with
        | none => false
        | some r4 =>
          containsSub "eval".data r4 || containsSub "exec".data r4

/-- The `dangerousPatterns` table of `validateDangerousPatterns`, in source
order. -/
def dangerousPatterns : List ((List Char → Bool) × String) :=
  [(searchPat tryRestrictedModCall,
    "Direct module method calls on restricted modules"),
   (searchPat tryWithOpen, "File context managers (with open)"),
   (searchPatBoundary tryWithFile none, "File context managers (with file)"),
   (fun l => (dotLines l).any lineLambdaDanger,
    "Lambda functions with dangerous operations"),
   (fun l => (dotLines l).any lineComprehensionDanger,
    "List comprehensions with code execution")]

/-- `validateDangerousPatterns`. -/
def validateDangerousPatterns (code : String) : Option String :=
  match dangerousPatterns.find? fun dp => dp.1 code.data with
  | some dp =>
    some ("Potentially unsafe pattern detected: " ++ dp.2 ++
      ". Please revise your prompt.")
  | none => none

/-- Matcher for `self\.camera\s*=`. -/
def tryCameraSelfAssign (l : List Char) : Option (List Char) := do
  let r ← eatLit "self.camera".data l
  eatLit "=".data (eatWsStar r)

/-- Matcher for `frame_rate\s*=`. -/
def tryFrameRate (l : List Char) : Option (List Char) := do
  let r ← eatLit "frame_rate".data l
  eatLit "=".data (eatWsStar r)

/-- After the opening quote of `quality\s*=\s*"[^"]*[mh]`: is there an `m`
or `h` before the next `"` (or the end)? -/
def quoteHasMH : List Char → Bool
  | [] => false
  | c :: cs =>
    if c = '"' then false
    else if c = 'm' || c = 'h' then true
    else quoteHasMH cs

/-- Matcher for `quality\s*=\s*"[^"]*[mh]`. -/
def tryQualityOverride (l : List Char) : Option (List Char) := do
  let r ← eatLit "quality".data l
  let r ← eatLit "=".data (eatWsStar r)
  let r ← eatLit "\"".data (eatWsStar r)
  if quoteHasMH r then pure r else none

/-- The `forbiddenCameraPatterns` table, in source order. -/
def forbiddenCameraPatterns : List ((List Char → Bool) × String) :=
  [(containsSub ".camera.frame".data, "camera.frame manipulation not allowed"),
   (containsSub ".camera.animate".data, "camera.animate not allowed"),
   (containsSub "camera.add".data, "camera configuration not allowed"),
   (searchPat tryCameraSelfAssign, "camera assignment not allowed")]

/-- The `qualityOverridePatterns` table, in source order. -/
def qualityOverridePatterns : List ((List Char → Bool) × String) :=
  [(containsSub "-qm".data, "Medium quality (-qm) not allowed, use -ql"),
   (containsSub "-qh".data, "High quality (-qh) not allowed, use -ql"),
   (searchPat tryQualityOverride, "Quality override not allowed"),
   (searchPat tryFrameRate, "Frame rate modification not allowed"),
   (containsSub "pixel_height".data, "Resolution modification not allowed"),
   (containsSub "pixel_width".data, "Resolution modification not allowed")]

/-- Matcher for `run_time\s*=\s*([0-9]+(?:\.[0-9]+)?)`, returning the
captured integer digits, fractional digits (empty when the optional group
does not match) and the rest after the match. -/
def tryRunTime (l : List Char) :
    Option ((List Char × List Char) × List Char) := do
  let r ← eatLit "run_time".data l
  let r ← eatLit "=".data (eatWsStar r)
  let r := eatWsStar r
  let ip := r.takeWhile Char.isDigit
  if ip.isEmpty then none
  else
    let r1 := r.dropWhile Char.isDigit
    match r1 with
    | '.' :: r2 =>
      let fp := r2.takeWhile Char.isDigit
      if fp.isEmpty then pure ((ip, []), r1)
      else pure ((ip, fp), r2.dropWhile Char.isDigit)
    | _ => pure ((ip, []), r1)

/-- All `run_time` captures, scanning left to right and continuing after
each match (the `g`-flag `exec` loop); fuel-driven with the input length. -/
def runTimeMatchesAux : Nat → List Char → List (List Char × List Char)
  | 0, _ => []
  | _ + 1, [] => []
  | fuel + 1, c :: cs =>
    match tryRunTime (c :: cs) with
    | some (capture, rest) => capture :: runTimeMatchesAux fuel rest
    | none => runTimeMatchesAux fuel cs

/-- All `run_time` captures of the code. -/
def runTimeMatches (code : String) : List (List Char × List Char) :=
  runTimeMatchesAux code.data.length code.data

/-- Numeric value of a digit run. -/
def natFromDigits (ds : List Char) : Nat :=
  ds.foldl (fun a c => a * 10 + (c.toNat - 48)) 0

/-- Is the captured decimal numeral greater than 5? Exact comparison of the
numeral, which agrees with JavaScript's `parseFloat` on every numeral short
enough to be represented exactly (all realistic `run_time` values). -/
def runTimeGtFive (ip fp : List Char) : Bool :=
  natFromDigits ip > 5 ||
    (natFromDigits ip == 5 && fp.any fun c => c ≠ '0')

/-- JavaScript's rendering `${parseFloat(numeral)}` of the captured
numeral: leading zeros and trailing fractional zeros disappear (exact for
the short numerals considered). -/
def renderRunTime (ip fp : List Char) : String :=
  let fp' := (fp.reverse.dropWhile fun c => c = '0').reverse
  if fp'.isEmpty then toString (natFromDigits ip)
  else toString (natFromDigits ip) ++ "." ++ String.mk fp'

/-- `validateOutputConstraints`: camera patterns, then quality overrides,
then the per-step `run_time` budget. -/
def validateOutputConstraints (code : String) : Option String :=
  match forbiddenCameraPatterns.find? fun p => p.1 code.data with
  | some p => some (p.2 ++ ". Do not use camera manipulation in your prompt.")
  | none =>
    match qualityOverridePatterns.find? fun p => p.1 code.data with
    | some p => some (p.2 ++ ". Resolution is fixed at 480p 15fps.")
    | none =>
      match (runTimeMatches code).find? fun m => runTimeGtFive m.1 m.2 with
      | some m =>
        some ("Animation step duration (" ++ renderRunTime m.1 m.2 ++
          "s) exceeds maximum of 5 seconds per step. Keep animations short and keep total under 12 seconds.")
      | none => none

/-- Step 1 of `validateAndCleanCode`: trim, then strip a single enclosing
markdown fence (`/^```(?:python)?\n?([\s\S]*?)\n?```$/`; the lazy middle
takes the earliest position at which `\n?``` can close the string, i.e. a
trailing `"\n```"` is preferred over a bare trailing `"```"`), trimming
the captured body. -/
def stripFences (s : String) : String :=
  let t := jsTrim s
  match eatLit "```".data t.data with
  | none => t
  | some r1 =>
    let r2 := match eatLit "python".data r1 with
      | some r => r
      | none => r1
    let r3 := match r2 with
      | '\n' :: rest => rest
      | _ => r2
    if listHasPrefixAt "```\n".data r3.reverse then
      jsTrim (String.mk (r3.take (r3.length - 4)))
    else if listHasPrefixAt "```".data r3.reverse then
      jsTrim (String.mk (r3.take (r3.length - 3)))
    else t

/-- Error object of the generation service's result. -/
structure GenError where
  gtype : String
  message : String
  details : Option String
deriving Repr, DecidableEq

/-- `ManimCodeGenerationResult`, restricted to the fields the validation
pipeline produces. -/
structure GenResult where
  success : Bool
  code : Option String
  explanation : Option String
  error : Option GenError
deriving Repr, DecidableEq

/-- A failed validation result. -/
def mkValidationError (message details : String) : GenResult :=
  { success := false, code := none, explanation := none,
    error := some { gtype := "validation", message := message,
                    details := some details } }

/-- `ManimCodeGeneratorService.validateAndCleanCode`: the nine-step
pipeline, in source order, short-circuiting at the first failing check. -/
def validateAndCleanCode (rawCode : String) : GenResult :=
  let cleanCode := stripFences rawCode
  if !searchPat tryFromManimStar cleanCode.data then
    mkValidationError
      "Generated code missing required \"from manim import *\" import"
      "The LLM did not include the mandatory Manim import statement"
  else
    let sceneMatches := scanClassScenes true cleanCode
    if sceneMatches.length = 0 then
      mkValidationError "No Scene class found in generated code"
        "The code must contain exactly one class that inherits from Scene"
    else if sceneMatches.length > 1 then
      mkValidationError
        ("Multiple Scene classes found (" ++ toString sceneMatches.length ++
          "). Expected exactly one.")
        ("Found classes: " ++ String.intercalate ", " sceneMatches)
    else if !searchPat tryConstruct cleanCode.data then
      mkValidationError "Scene class missing required construct(self) method"
        "Every Manim Scene must have a construct method"
    else
      let openParens := cleanCode.data.count '('
      let closeParens := cleanCode.data.count ')'
      if openParens ≠ closeParens then
        mkValidationError
          "Syntax error: Unbalanced parentheses in generated code"
          ("Found " ++ toString openParens ++ " opening and " ++
            toString closeParens ++ " closing parentheses")
      else
        match validateImports cleanCode with
        | some reason =>
          mkValidationError "Code contains forbidden imports" reason
        | none =>
          match validateForbiddenCalls cleanCode with
          | some reason =>
            mkValidationError "Code contains forbidden operations" reason
          | none =>
            match validateDangerousPatterns cleanCode with
            | some reason =>
              mkValidationError "Code contains potentially unsafe patterns"
                reason
            | none =>
              match validateOutputConstraints cleanCode with
              | some reason =>
                mkValidationError "Code violates output constraints" reason
              | none =>
                { success := true, code := some cleanCode,
                  explanation := none, error := none }

/-- Fixture: code missing the mandatory import. -/
def c6MissingImport : String :=
  "class Demo(Scene):\n    def construct(self):\n        pass\n"

/-- Fixture: code with two classes inheriting `Scene`. -/
def c6TwoScenes : String :=
  "from manim import *\n\nclass A(Scene):\n    def construct(self):\n        pass\n\nclass B(Scene):\n    def construct(self):\n        pass\n"

/-- Fixture: code containing `os.system(...)`. -/
def c6OsSystem : String :=
  "from manim import *\n\nclass Demo(Scene):\n    def construct(self):\n        os.system('ls')\n"

/-- Fixture: code with `run_time=6`. -/
def c6RunTime6 : String :=
  "from manim import *\n\nclass Demo(Scene):\n    def construct(self):\n        self.play(Rotate(Square(), run_time=6))\n"

/-- Fixture: code containing `self.camera = None`. -/
def c6CameraAssign : String :=
  "from manim import *\n\nclass Demo(Scene):\n    def construct(self):\n        self.camera = None\n"

/-- C6 (amended). The validation pipeline rejects each of the five probe
programs with a validation-typed error: missing mandatory import (message
naming `from manim import *`); two `Scene` classes (details naming both
class names); `os.system(...)` (details citing direct module method calls
on restricted modules — the matched module is not named in the message);
`run_time=6` (details citing the 5-second-per-step limit); and
`self.camera = None` (details citing forbidden camera manipulation). -/
theorem validation_pipeline_reject_cases :
    (validateAndCleanCode c6MissingImport =
      mkValidationError
        "Generated code missing required \"from manim import *\" import"
        "The LLM did not include the mandatory Manim import statement" ∧
     strIncludes
       "Generated code missing required \"from manim import *\" import"
       "from manim import *" = true) ∧
    (validateAndCleanCode c6TwoScenes =
      mkValidationError
        "Multiple Scene classes found (2). Expected exactly one."
        "Found classes: A, B") ∧
    (validateAndCleanCode c6OsSystem =
      mkValidationError "Code contains potentially unsafe patterns"
        "Potentially unsafe pattern detected: Direct module method calls on restricted modules. Please revise your prompt.") ∧
    (validateAndCleanCode c6RunTime6 =
      mkValidationError "Code violates output constraints"
        "Animation step duration (6s) exceeds maximum of 5 seconds per step. Keep animations short and keep total under 12 seconds." ∧
     strIncludes
       "Animation step duration (6s) exceeds maximum of 5 seconds per step. Keep animations short and keep total under 12 seconds."
       "5 seconds per step" = true) ∧
    (validateAndCleanCode c6CameraAssign =
      mkValidationError "Code violates output constraints"
        "camera assignment not allowed. Do not use camera manipulation in your prompt." ∧
     strIncludes
       "camera assignment not allowed. Do not use camera manipulation in your prompt."
       "camera manipulation" = true) := by
  refine ⟨⟨?_, ?_⟩, ?_, ?_, ⟨?_, ?_⟩, ⟨?_, ?_⟩⟩ <;> decide

/-- C6 counterexample. The claim says the `os.system(...)` rejection names
the `os` module; the produced error's message and details never contain
the substring `os` at all — the dangerous-pattern table's message is the
fixed text about restricted modules. -/
theorem os_system_error_does_not_name_os :
    (validateAndCleanCode c6OsSystem).error.map (·.message) =
      some "Code contains potentially unsafe patterns" ∧
    (validateAndCleanCode c6OsSystem).error.bind (·.details) =
      some "Potentially unsafe pattern detected: Direct module method calls on restricted modules. Please revise your prompt." ∧
    strIncludes "Code contains potentially unsafe patterns" "os" = false ∧
    strIncludes
      "Potentially unsafe pattern detected: Direct module method calls on restricted modules. Please revise your prompt."
      "os" = false := by
  refine ⟨?_, ?_, ?_, ?_⟩ <;> decide
